import Mathlib

/-!
Shallow embedding of the BST agent-orchestration core of this repository:
the token balancer (`src/shared/utils/token_balancer.py`), the shared node
model (`src/shared/types/node.py`), and the process dispatch of the root
orchestrator M000, the YAML-config leaf M111 and the web-interface leaf M221.

Modelling conventions:
- Python `float` arithmetic is modelled exactly over `ℚ` (0.1 = 1/10 etc.).
- Python `int` is `ℤ`; `int(x)` truncation toward zero is `pyInt`;
  nonnegative `//` is `Nat` division.
- Python dicts that are observed by the code (insertion-ordered, unique
  keys) are association lists `List (String × α)` with `dictGet?`,
  `dictSet`, `dictDel`.
- The balancer's `node_weights` dict with its get-or-create accessor
  `_get_node_weight` is observation-equivalent to a total function
  `String → NodeWeight` whose default is `NodeWeight()`; it is modelled so.
- The memoization cache `_weight_cache` is never consulted: `_cache_valid`
  is initialised `False`, only ever set `False` (`_invalidate_cache`), and
  never set `True`, so the guard `self._cache_valid and ...` in
  `_calculate_weight` always fails.  The cache is therefore dropped and
  `_calculate_weight` is the pure `subtreeWeight`.
-/

namespace TokenTree

/-- `NodeWeight` from `token_balancer.py`: four weight factors.
Python floats become `ℚ`, Python ints become `ℤ`. -/
structure NodeWeight where
  historical_usage : ℚ := 1
  queue_depth : ℤ := 0
  complexity : ℚ := 1
  priority : ℤ := 5
deriving DecidableEq, Repr

/-- `NodeWeight.total_weight`:
`historical_usage * complexity * (1 + queue_depth*0.1) * (priority/5.0)`. -/
def NodeWeight.total_weight (w : NodeWeight) : ℚ :=
  w.historical_usage * w.complexity * (1 + (w.queue_depth : ℚ) * (1/10)) *
    ((w.priority : ℚ) / 5)

/-- `AllocationRecord` from `token_balancer.py`. -/
structure AllocationRecord where
  node_id : String
  allocated : ℤ
  consumed : ℤ := 0
  timestamp : ℚ := 0
deriving DecidableEq, Repr

/-- `AllocationRecord.utilization`: `consumed / allocated`, `0` when
`allocated == 0`. -/
def AllocationRecord.utilization (r : AllocationRecord) : ℚ :=
  if r.allocated = 0 then 0 else (r.consumed : ℚ) / (r.allocated : ℚ)

/-- The fixed binary tree shape walked by the balancer and the router.
Every node of the repository tree is either a leaf (`is_leaf`) or has both
children, so `None` children need not be represented. -/
inductive BTree where
  | leaf (node_id : String)
  | node (node_id : String) (left : BTree) (right : BTree)
deriving DecidableEq, Repr

/-- `node.node_id`. -/
def BTree.node_id : BTree → String
  | .leaf i => i
  | .node i _ _ => i

/-- The ids of the leaves of a tree, in left-to-right traversal order
(the order `_distribute` visits them). -/
def BTree.leafIds : BTree → List String
  | .leaf i => [i]
  | .node _ l r => l.leafIds ++ r.leafIds

/-- Python `int(x)` applied to a float: truncation toward zero. -/
def pyInt (q : ℚ) : ℤ := if 0 ≤ q then ⌊q⌋ else ⌈q⌉

/-- Python-dict lookup on an insertion-ordered association list. -/
def dictGet? {α : Type} : List (String × α) → String → Option α
  | [], _ => none
  | (k', v) :: rest, k => if k' = k then some v else dictGet? rest k

/-- Python-dict write `d[k] = v`: replace in place, or append a new entry. -/
def dictSet {α : Type} : List (String × α) → String → α → List (String × α)
  | [], k, v => [(k, v)]
  | (k', v') :: rest, k, v =>
      if k' = k then (k, v) :: rest else (k', v') :: dictSet rest k v

/-- Python-dict `del d[k]` (keys are unique, so removing every match is
the same as removing the one entry). -/
def dictDel {α : Type} : List (String × α) → String → List (String × α)
  | [], _ => []
  | (k', v') :: rest, k =>
      if k' = k then dictDel rest k else (k', v') :: dictDel rest k

/-- The weights table of the balancer (see the header note for why a
total function is faithful). -/
abbrev WeightMap := String → NodeWeight

/-- The `leaf_allocations` dict of the balancer. -/
abbrev AllocMap := List (String × AllocationRecord)

/-- `TokenBalancer` state: `total_budget`, `leaf_allocations`,
`node_weights`.  The dead `_weight_cache` / `_cache_valid` pair is
dropped (see header). -/
structure Balancer where
  total_budget : ℤ
  leaf_allocations : AllocMap := []
  node_weights : WeightMap := fun _ => {}

/-- `TokenBalancer.get_allocation`: allocated tokens of a record, `0` for
unknown ids. -/
def get_allocation (st : Balancer) (node_id : String) : ℤ :=
  match dictGet? st.leaf_allocations node_id with
  | some r => r.allocated
  | none => 0

/-- `TokenBalancer._calculate_weight` (cache never consulted): a leaf uses
its `NodeWeight.total_weight`, an internal node sums its children. -/
def subtreeWeight (nw : WeightMap) : BTree → ℚ
  | .leaf i => (nw i).total_weight
  | .node _ l r => subtreeWeight nw l + subtreeWeight nw r

/-- The left-child budget computed in `_distribute`:
`int(available_budget * (left_weight / total_weight))` with
`total_weight = 1` substituted when `left_weight + right_weight == 0`. -/
def leftShare (lw rw : ℚ) (b : ℤ) : ℤ :=
  let tw : ℚ := if lw + rw = 0 then 1 else lw + rw
  pyInt ((b : ℚ) * (lw / tw))

/-- The right-child budget in `_distribute`:
`available_budget - left_budget`. -/
def rightShare (lw rw : ℚ) (b : ℤ) : ℤ := b - leftShare lw rw b

/-- `TokenBalancer._distribute`: recursive proportional split writing an
`AllocationRecord` (fresh `consumed = 0`) for every leaf reached.
The mirror write `node.set_allocation` to the node object is modelled
separately by `set_allocation` on `TokenAccount`. -/
def distribute (nw : WeightMap) : BTree → ℤ → AllocMap → AllocMap
  | .leaf i, b, m => dictSet m i { node_id := i, allocated := b }
  | .node _ l r, b, m =>
      let lw := subtreeWeight nw l
      let rw := subtreeWeight nw r
      let lb := leftShare lw rw b
      distribute nw r (b - lb) (distribute nw l lb m)

/-- `TokenBalancer.balance_tokens`: `_invalidate_cache` (a no-op on the
observable state), `_distribute` from the root with the full budget, then
the `{k: v.allocated}` snapshot of `leaf_allocations`. -/
def balance_tokens (st : Balancer) (t : BTree) :
    List (String × ℤ) × Balancer :=
  let alloc := distribute st.node_weights t st.total_budget st.leaf_allocations
  (alloc.map (fun p => (p.1, p.2.allocated)), { st with leaf_allocations := alloc })

/-- `TokenBalancer._get_subtree_budget`: total allocation of a subtree. -/
def subtreeBudget (st : Balancer) : BTree → ℤ
  | .leaf i => get_allocation st i
  | .node _ l r => subtreeBudget st l + subtreeBudget st r

/-- `TokenBalancer._clear_subtree_allocations`: delete the records of the
subtree leaves. -/
def clearSubtree : AllocMap → BTree → AllocMap
  | m, .leaf i => dictDel m i
  | m, .node _ l r => clearSubtree (clearSubtree m l) r

/-- `TokenBalancer.rebalance_partial` on a non-null subtree root: compute
the subtree budget, clear the subtree records, redistribute scoped to the
subtree, and return the allocation snapshot. -/
def rebalance_partial (st : Balancer) (t : BTree) :
    List (String × ℤ) × Balancer :=
  let subtree_budget := subtreeBudget st t
  let m1 := clearSubtree st.leaf_allocations t
  let m2 := distribute st.node_weights t subtree_budget m1
  (m2.map (fun p => (p.1, p.2.allocated)), { st with leaf_allocations := m2 })

/-- The per-node weight adjustment of `_recalculate_all_weights`: only
when the node has an entry in `leaf_allocations`, multiply
`historical_usage` by 1.1 when utilization > 0.8, by 0.9 when < 0.2. -/
def adjustWeight (alloc : AllocMap) (nw : WeightMap) (i : String) : WeightMap :=
  match dictGet? alloc i with
  | none => nw
  | some record =>
      let w := nw i
      if record.utilization > 4/5 then
        fun j => if j = i then { w with historical_usage := w.historical_usage * (11/10) } else nw j
      else if record.utilization < 1/5 then
        fun j => if j = i then { w with historical_usage := w.historical_usage * (9/10) } else nw j
      else nw

/-- `TokenBalancer._recalculate_all_weights`: pre-order walk applying
`adjustWeight` at every node. -/
def recalcAllWeights (alloc : AllocMap) : WeightMap → BTree → WeightMap
  | nw, .leaf i => adjustWeight alloc nw i
  | nw, .node i l r =>
      recalcAllWeights alloc (recalcAllWeights alloc (adjustWeight alloc nw i) l) r

/-- `TokenBalancer.rebalance_full`, in source order: invalidate the cache,
**clear `leaf_allocations`**, then run `_recalculate_all_weights` (which
consults the just-cleared `leaf_allocations`), then `_distribute` the full
budget. -/
def rebalance_full (st : Balancer) (t : BTree) :
    List (String × ℤ) × Balancer :=
  let cleared : AllocMap := []
  let nw := recalcAllWeights cleared st.node_weights t
  let m2 := distribute nw t st.total_budget cleared
  (m2.map (fun p => (p.1, p.2.allocated)),
   { st with leaf_allocations := m2, node_weights := nw })

/-- `TokenBalancer.record_consumption`: add to `consumed`, no-op for
unknown ids. -/
def record_consumption (st : Balancer) (node_id : String) (tokens_used : ℤ) :
    Balancer :=
  match dictGet? st.leaf_allocations node_id with
  | some r =>
      { st with leaf_allocations :=
          dictSet st.leaf_allocations node_id { r with consumed := r.consumed + tokens_used } }
  | none => st

/-- The `**kwargs` of `TokenBalancer.update_weight`: each present field is
written onto the `NodeWeight` (the four settable attributes). -/
structure WeightUpdate where
  historical_usage : Option ℚ := none
  queue_depth : Option ℤ := none
  complexity : Option ℚ := none
  priority : Option ℤ := none

/-- The `setattr` loop of `update_weight` applied to one `NodeWeight`. -/
def applyUpdate (w : NodeWeight) (u : WeightUpdate) : NodeWeight :=
  { historical_usage := u.historical_usage.getD w.historical_usage
    queue_depth := u.queue_depth.getD w.queue_depth
    complexity := u.complexity.getD w.complexity
    priority := u.priority.getD w.priority }

/-- `TokenBalancer.update_weight` (the cache invalidation is a no-op on
the observable state). -/
def update_weight (st : Balancer) (node_id : String) (u : WeightUpdate) :
    Balancer :=
  { st with node_weights :=
      fun j => if j = node_id then applyUpdate (st.node_weights node_id) u
               else st.node_weights j }

/-- Allocated tokens of an id in an allocation map (the body of
`get_allocation`). -/
def getAlloc (m : AllocMap) (i : String) : ℤ :=
  match dictGet? m i with
  | some r => r.allocated
  | none => 0

/-- Sum of the allocations of a list of ids in a map. -/
def sumAlloc (m : AllocMap) (ids : List String) : ℤ :=
  (ids.map (fun i => getAlloc m i)).sum

/-- The budget a given leaf id receives from `_distribute` (pure
path-following recurrence; related to `distribute` by
`getAlloc_distribute`). -/
def leafAlloc (nw : WeightMap) : BTree → ℤ → String → ℤ
  | .leaf _, b, _ => b
  | .node _ l r, b, x =>
      let lb := leftShare (subtreeWeight nw l) (subtreeWeight nw r) b
      if x ∈ l.leafIds then leafAlloc nw l lb x else leafAlloc nw r (b - lb) x

/-- All four weight factors nonnegative — the documented domain of
`NodeWeight` (`historical_usage ≥ 0`, `queue_depth ≥ 0`,
`complexity ≥ 0`, `priority` on a 1–10 scale). -/
def WeightNonneg (w : NodeWeight) : Prop :=
  0 ≤ w.historical_usage ∧ 0 ≤ w.queue_depth ∧ 0 ≤ w.complexity ∧ 0 ≤ w.priority

/-- A `update_weight` kwargs payload that increases exactly one of the
three factors named by the monotonicity property (`priority`,
`historical_usage`, `complexity`), leaving the others untouched. -/
def IncreasesOneFactor (w : NodeWeight) (u : WeightUpdate) : Prop :=
  (∃ v, w.historical_usage ≤ v ∧ u = { historical_usage := some v }) ∨
  (∃ v, w.complexity ≤ v ∧ u = { complexity := some v }) ∨
  (∃ v, w.priority ≤ v ∧ u = { priority := some v })

/-! ## Node model (`src/shared/types/node.py`) -/

/-- The mutable token account every `BSTNode` owns:
`_token_allocation` and `_tokens_consumed`. -/
structure TokenAccount where
  token_allocation : ℤ
  tokens_consumed : ℤ := 0
deriving DecidableEq, Repr

/-- `BSTNode.tokens_remaining`. -/
def tokens_remaining (a : TokenAccount) : ℤ :=
  a.token_allocation - a.tokens_consumed

/-- `BSTNode.consume_tokens`: reject (returning `False`, account
untouched) when `amount > tokens_remaining`, otherwise add to
`_tokens_consumed` and return `True`. -/
def consume_tokens (a : TokenAccount) (amount : ℤ) : Bool × TokenAccount :=
  if amount > tokens_remaining a then (false, a)
  else (true, { a with tokens_consumed := a.tokens_consumed + amount })

/-- `BSTNode.reset_tokens`. -/
def reset_tokens (a : TokenAccount) : TokenAccount :=
  { a with tokens_consumed := 0 }

/-- `BSTNode.set_allocation`: overwrite `_token_allocation`
unconditionally. -/
def set_allocation (a : TokenAccount) (tokens : ℤ) : TokenAccount :=
  { a with token_allocation := tokens }

/-- The `consumed ≤ allocated` data-model invariant. -/
def AccountInv (a : TokenAccount) : Prop :=
  a.tokens_consumed ≤ a.token_allocation

/-! ## Python values

Leaf payloads are Python objects (`Dict[str, Any]` and friends).  They
are embedded as `PyVal`; `pyRepr` is Python `str()` on these values,
which the mock interfaces use for `bytes_transferred = len(str(data))`.
A brace character inside a Lean string below is written with the `\x7b`
/ `\x7d` escapes and a single-quote character via `squote`. -/

inductive PyVal where
  | pyNone
  | pyBool (b : Bool)
  | pyInt (n : ℤ)
  | pyFloat (q : ℚ)
  | pyStr (s : String)
  | pyList (items : List PyVal)
  | pyDict (entries : List (String × PyVal))

/-- The single-quote character, as a string. -/
def squote : String := String.singleton (Char.ofNat 39)

/-- The opening brace, as a string. -/
def obrace : String := String.singleton (Char.ofNat 123)

/-- The closing brace, as a string. -/
def cbrace : String := String.singleton (Char.ofNat 125)

mutual

/-- Python `str()` on an embedded value (no escapes occur in the
repository's string data, so `str` of a string is quote-wrap; every
float literal in the repository data is whole-numbered, so floats print
as `n.0`). -/
def pyRepr : PyVal → String
  | .pyNone => "None"
  | .pyBool true => "True"
  | .pyBool false => "False"
  | .pyInt n => toString n
  | .pyFloat q => if q.den = 1 then toString q.num ++ ".0" else toString q
  | .pyStr s => squote ++ s ++ squote
  | .pyList items => "[" ++ String.intercalate ", " (pyReprList items) ++ "]"
  | .pyDict entries =>
      obrace ++ String.intercalate ", " (pyReprEntries entries) ++ cbrace

/-- `str()` of the elements of a list. -/
def pyReprList : List PyVal → List String
  | [] => []
  | x :: xs => pyRepr x :: pyReprList xs

/-- `str()` of the `k: v` items of a dict. -/
def pyReprEntries : List (String × PyVal) → List String
  | [] => []
  | (k, v) :: xs => (squote ++ k ++ squote ++ ": " ++ pyRepr v) :: pyReprEntries xs

end

/-- Python truthiness for the values that reach a truthiness test in the
embedded code (dicts/lists: nonempty; numbers: nonzero; strings:
nonempty). -/
def pyTruthy : PyVal → Bool
  | .pyNone => false
  | .pyBool b => b
  | .pyInt n => n ≠ 0
  | .pyFloat q => q ≠ 0
  | .pyStr s => s ≠ ""
  | .pyList items => !items.isEmpty
  | .pyDict entries => !entries.isEmpty

/-- `d.get(k, default)` — raises `AttributeError` on a non-dict. -/
def pyGetD (d : PyVal) (k : String) (dflt : PyVal) : Except String PyVal :=
  match d with
  | .pyDict entries => .ok ((dictGet? entries k).getD dflt)
  | _ => .error "AttributeError: object has no attribute get"

/-- `lst[0]` — raises `IndexError` on an empty list, `TypeError` on a
non-list. -/
def pyIndex0 (v : PyVal) : Except String PyVal :=
  match v with
  | .pyList [] => .error "IndexError: list index out of range"
  | .pyList (x :: _) => .ok x
  | _ => .error "TypeError: object is not subscriptable"

/-- `{**a, **b}` — both operands must be dicts; keys of `b` win. -/
def pyMerge (a b : PyVal) : Except String PyVal :=
  match a, b with
  | .pyDict ea, .pyDict eb => .ok (.pyDict (eb.foldl (fun acc kv => dictSet acc kv.1 kv.2) ea))
  | _, _ => .error "TypeError: argument must be a mapping"

/-- `d[k] = v` — raises `TypeError` on a non-dict. -/
def pySet (d : PyVal) (k : String) (v : PyVal) : Except String PyVal :=
  match d with
  | .pyDict entries => .ok (.pyDict (dictSet entries k v))
  | _ => .error "TypeError: object does not support item assignment"

/-- Python `==` restricted to the comparisons the embedded code performs
(scalars; `bool` compares numerically with `int`). -/
def pyEq : PyVal → PyVal → Bool
  | .pyInt a, .pyInt b => a == b
  | .pyBool a, .pyInt b => (if a then (1 : ℤ) else 0) == b
  | .pyInt a, .pyBool b => a == (if b then (1 : ℤ) else 0)
  | .pyBool a, .pyBool b => a == b
  | .pyStr a, .pyStr b => a == b
  | .pyNone, .pyNone => true
  | _, _ => false

/-- Does `pat` occur at the head of `s`? (character-list helper for
Python substring containment). -/
def startsChars : List Char → List Char → Bool
  | _, [] => true
  | [], _ :: _ => false
  | a :: as, b :: bs => a == b && startsChars as bs

/-- Does `pat` occur anywhere in `s`? -/
def hasSub : List Char → List Char → Bool
  | [], pat => startsChars [] pat
  | a :: rest, pat => startsChars (a :: rest) pat || hasSub rest pat

/-- Python substring containment `pat in s`. -/
def containsSub (s pat : String) : Bool := hasSub s.data pat.data

/-- Python `str.upper()` on the ASCII method names the code handles. -/
def pyUpper (s : String) : String := String.mk (s.data.map Char.toUpper)

/-- Python `str.startswith`. -/
def pyStarts (s pre : String) : Bool := startsChars s.data pre.data

/-- Python `int(s)` — `String.toInt?` models the accepted literals; a
parse failure models the `ValueError`. -/
def pyParseInt (s : String) : Except String ℤ :=
  match s.toInt? with
  | some n => .ok n
  | none => .error ("invalid literal for int() with base 10: " ++ squote ++ s ++ squote)

/-! ## Result envelope and requests -/

/-- `NodeResult` from `node.py`. -/
structure NodeResult where
  success : Bool
  data : PyVal := .pyNone
  error : Option String := none
  tokens_used : ℤ := 0
  node_id : String := ""

/-- `InterfaceResult` from `shared/interfaces/external.py`. -/
structure InterfaceResult where
  success : Bool
  data : PyVal := .pyNone
  error : Option String := none
  bytes_transferred : ℕ := 0

/-- A request dict.  The embedded `process` implementations read a fixed
set of keys with `input_data.get(key, default)`; each key the code reads
is one optional field (`none` = key absent). -/
structure Req where
  action : Option String := none
  path : Option String := none
  data : Option PyVal := none
  target : Option String := none
  request : Option Req
  config_path : Option String := none
  workflow_type : Option String := none
  rtype : Option String := none
  tool : Option String := none
  params : Option PyVal := none
  report_type : Option String := none
  include_config : Option Bool := none
  method : Option String := none
  url : Option String := none

/-- The empty request dict `{}`. -/
def emptyReq : Req :=
  { request := none }

/-- `None` in an f-string prints as `"None"`. -/
def optStr (o : Option String) : String := o.getD "None"

/-! ## M111 — YAML configuration leaf (`src/tree/M111/src/main.py`) -/

/-- The `_default_config` of `MockYAMLInterface`. -/
def yamlDefaultConfig : PyVal :=
  .pyDict
    [("database", .pyDict
        [("host", .pyStr "localhost"), ("port", .pyInt 5432),
         ("name", .pyStr "tenant_db")]),
     ("logging", .pyDict
        [("level", .pyStr "INFO"),
         ("format", .pyStr "%(asctime)s - %(name)s - %(levelname)s - %(message)s")]),
     ("api", .pyDict
        [("host", .pyStr "0.0.0.0"), ("port", .pyInt 8000),
         ("debug", .pyBool false)])]

/-- `MockYAMLInterface.read`: stored value if present, otherwise a copy
of the default config; `bytes_transferred = len(str(data))`. -/
def mockYamlRead (storage : List (String × PyVal)) (path : String) :
    InterfaceResult :=
  match dictGet? storage path with
  | some d =>
      { success := true, data := d, bytes_transferred := (pyRepr d).length }
  | none =>
      { success := true, data := yamlDefaultConfig,
        bytes_transferred := (pyRepr yamlDefaultConfig).length }

/-- `MockYAMLInterface.write`. -/
def mockYamlWrite (storage : List (String × PyVal)) (path : String)
    (data : PyVal) : InterfaceResult × List (String × PyVal) :=
  ({ success := true,
     data := .pyDict [("path", .pyStr path), ("written", .pyBool true)],
     bytes_transferred := (pyRepr data).length },
   dictSet storage path data)

/-- `YAMLConfigNode` state: connection flag, the mock interface storage,
and the token account (budget 5000). -/
structure M111State where
  connected : Bool := false
  storage : List (String × PyVal) := []
  account : TokenAccount := { token_allocation := 5000 }

/-- `YAMLConfigNode.process`.  `connect()` replaces the interface (fresh
empty storage).  The `consume_tokens` return value is discarded, exactly
as in the source. -/
def m111Process (st : M111State) (req : Req) : NodeResult × M111State :=
  let st := if st.connected then st else { st with connected := true, storage := [] }
  let tokens0 : ℤ := 10
  let action := req.action.getD "read"
  let path := req.path.getD "config/settings.yaml"
  if action = "read" then
    let r := mockYamlRead st.storage path
    let tokens := tokens0 + ((r.bytes_transferred / 100 : ℕ) : ℤ)
    let acct := (consume_tokens st.account tokens).2
    ({ success := r.success, data := r.data, error := r.error,
       tokens_used := tokens, node_id := "M111" },
     { st with account := acct })
  else if action = "write" then
    let data := req.data.getD (.pyDict [])
    let (r, storage) := mockYamlWrite st.storage path data
    let tokens := tokens0 + ((r.bytes_transferred / 50 : ℕ) : ℤ)
    let acct := (consume_tokens st.account tokens).2
    ({ success := r.success, data := r.data, error := r.error,
       tokens_used := tokens, node_id := "M111" },
     { st with storage := storage, account := acct })
  else
    ({ success := false, error := some ("Unknown action: " ++ action),
       tokens_used := tokens0, node_id := "M111" }, st)

/-! ## M221 — web interface leaf (`src/tree/M221/src/main.py`) -/

/-- The `_data_store` of `MockHTTPInterface`. -/
structure M221Store where
  tenants : List PyVal
  payments : List PyVal

/-- The initial data store built by `MockHTTPInterface.__init__`. -/
def m221InitialStore : M221Store where
  tenants :=
    [.pyDict [("id", .pyInt 1), ("name", .pyStr "John Doe"), ("unit", .pyStr "101")],
     .pyDict [("id", .pyInt 2), ("name", .pyStr "Jane Smith"), ("unit", .pyStr "102")]]
  payments :=
    [.pyDict [("id", .pyInt 1), ("tenant_id", .pyInt 1), ("amount", .pyFloat 1500)]]

/-- `next((t for t in tenants if t["id"] == tenant_id), None)`: the
generator raises on an entry without an `"id"` key or a non-dict
entry. -/
def findByIdKey : List PyVal → ℤ → Except String (Option PyVal)
  | [], _ => .ok none
  | t :: ts, tid =>
      match t with
      | .pyDict entries =>
          match dictGet? entries "id" with
          | some v =>
              if pyEq v (.pyInt tid) then .ok (some t) else findByIdKey ts tid
          | none => .error ("KeyError: " ++ squote ++ "id" ++ squote)
      | _ => .error "TypeError: object is not subscriptable"

/-- The integer `"id"` values of a list of records (as consumed by
`max(t["id"] for t in ...)`). -/
def idsOf : List PyVal → Except String (List ℤ)
  | [] => .ok []
  | t :: ts =>
      match t with
      | .pyDict entries =>
          match dictGet? entries "id" with
          | some (.pyInt n) => do
              let rest ← idsOf ts
              .ok (n :: rest)
          | some _ => .error "TypeError: comparison not supported"
          | none => .error ("KeyError: " ++ squote ++ "id" ++ squote)
      | _ => .error "TypeError: object is not subscriptable"

/-- `max(t["id"] for t in rows) + 1 if rows else 1`. -/
def maxIdPlusOne (rows : List PyVal) : Except String ℤ :=
  if rows.isEmpty then .ok 1
  else do
    let ids ← idsOf rows
    .ok (ids.foldl max (ids.headD 0) + 1)

/-- The last path segment, `url.split("/")[-1]`. -/
def lastSeg (url : String) : String := ((url.splitOn "/").reverse).headD ""

/-- `MockHTTPInterface.get`. -/
def mockGet (store : M221Store) (url : String) : Except String InterfaceResult :=
  if containsSub url "/api/tenants" then
    if url = "/api/tenants" then
      .ok { success := true, data := .pyList store.tenants,
            bytes_transferred := (pyRepr (.pyList store.tenants)).length }
    else do
      let tid ← pyParseInt (lastSeg url)
      let t? ← findByIdKey store.tenants tid
      match t? with
      | some t => .ok { success := true, data := t }
      | none => .ok { success := false, error := some "Tenant not found" }
  else if containsSub url "/api/payments" then
    .ok { success := true, data := .pyList store.payments }
  else if containsSub url "/api/reports" then
    .ok { success := true,
          data := .pyDict [("reports",
            .pyList [.pyStr "monthly", .pyStr "quarterly", .pyStr "annual"])] }
  else
    .ok { success := false, error := some "Endpoint not found" }

/-- `MockHTTPInterface.post`. -/
def mockPost (store : M221Store) (url : String) (data : PyVal) :
    Except String (InterfaceResult × M221Store) :=
  if containsSub url "/api/tenants" then do
    let newId ← maxIdPlusOne store.tenants
    let newTenant ← pyMerge (.pyDict [("id", .pyInt newId)]) data
    .ok ({ success := true, data := newTenant,
           bytes_transferred := (pyRepr newTenant).length },
         { store with tenants := store.tenants ++ [newTenant] })
  else if containsSub url "/api/payments" then do
    let newId ← maxIdPlusOne store.payments
    let newPayment ← pyMerge (.pyDict [("id", .pyInt newId)]) data
    .ok ({ success := true, data := newPayment },
         { store with payments := store.payments ++ [newPayment] })
  else if containsSub url "/api/reports" then do
    let t ← pyGetD data "type" (.pyStr "unknown")
    .ok ({ success := true,
           data := .pyDict [("status", .pyStr "accepted"), ("report_type", t)] },
         store)
  else
    .ok ({ success := false, error := some "Endpoint not found" }, store)

/-- The tenant-update loop of `MockHTTPInterface.put`
(`tenant.update(data)` on the first id match). -/
def updateTenant : List PyVal → ℤ → PyVal →
    Except String (InterfaceResult × List PyVal)
  | [], _, _ => .ok ({ success := false, error := some "Tenant not found" }, [])
  | t :: ts, tid, data =>
      match t with
      | .pyDict entries =>
          match dictGet? entries "id" with
          | some v =>
              if pyEq v (.pyInt tid) then do
                let t2 ← pyMerge t data
                .ok ({ success := true, data := t2 }, t2 :: ts)
              else do
                let (r, ts2) ← updateTenant ts tid data
                .ok (r, t :: ts2)
          | none => .error ("KeyError: " ++ squote ++ "id" ++ squote)
      | _ => .error "TypeError: object is not subscriptable"

/-- `MockHTTPInterface.put`. -/
def mockPut (store : M221Store) (url : String) (data : PyVal) :
    Except String (InterfaceResult × M221Store) :=
  if containsSub url "/api/tenants/" then do
    let tid ← pyParseInt (lastSeg url)
    let (r, ts) ← updateTenant store.tenants tid data
    .ok (r, { store with tenants := ts })
  else
    .ok ({ success := false, error := some "Endpoint not found" }, store)

/-- The list comprehension of `MockHTTPInterface.delete`
(`[t for t in tenants if t["id"] != tenant_id]`). -/
def filterOutId : List PyVal → ℤ → Except String (List PyVal)
  | [], _ => .ok []
  | t :: ts, tid =>
      match t with
      | .pyDict entries =>
          match dictGet? entries "id" with
          | some v => do
              let rest ← filterOutId ts tid
              if pyEq v (.pyInt tid) then .ok rest else .ok (t :: rest)
          | none => .error ("KeyError: " ++ squote ++ "id" ++ squote)
      | _ => .error "TypeError: object is not subscriptable"

/-- `MockHTTPInterface.delete`. -/
def mockDelete (store : M221Store) (url : String) :
    Except String (InterfaceResult × M221Store) :=
  if containsSub url "/api/tenants/" then do
    let tid ← pyParseInt (lastSeg url)
    let ts ← filterOutId store.tenants tid
    .ok ({ success := true, data := .pyDict [("deleted", .pyInt tid)] },
         { store with tenants := ts })
  else
    .ok ({ success := false, error := some "Endpoint not found" }, store)

/-- `WebInterfaceNode` state (budget 12000). -/
structure M221State where
  connected : Bool := false
  store : M221Store := m221InitialStore
  account : TokenAccount := { token_allocation := 12000 }

/-- `WebInterfaceNode.process`: dispatches on the `method` key (never on
`action`); an exception inside the mock interface is caught at the node
boundary and returned as a failed result with the base token cost. -/
def m221Process (st : M221State) (req : Req) : NodeResult × M221State :=
  let st := if st.connected then st else { st with connected := true, store := m221InitialStore }
  let tokens0 : ℤ := 25
  let method := pyUpper (req.method.getD "GET")
  let url := req.url.getD ""
  let data := req.data.getD (.pyDict [])
  let dispatch : Option (Except String (InterfaceResult × M221Store)) :=
    if method = "GET" then some ((mockGet st.store url).map (fun r => (r, st.store)))
    else if method = "POST" then some (mockPost st.store url data)
    else if method = "PUT" then some (mockPut st.store url data)
    else if method = "DELETE" then some (mockDelete st.store url)
    else none
  match dispatch with
  | none =>
      ({ success := false, error := some ("Unknown method: " ++ method),
         tokens_used := tokens0, node_id := "M221" }, st)
  | some (.error e) =>
      ({ success := false, error := some e, tokens_used := tokens0,
         node_id := "M221" }, st)
  | some (.ok (r, store)) =>
      let tokens := tokens0 + ((r.bytes_transferred / 15 : ℕ) : ℤ)
      let acct := (consume_tokens st.account tokens).2
      ({ success := r.success, data := r.data, error := r.error,
         tokens_used := tokens, node_id := "M221" },
       { st with store := store, account := acct })

/-! ## M000 — root orchestrator (`src/tree/M000/src/main.py`)

`RootOrchestratorNode.process` is embedded with its two children as
collaborator parameters (`leftProc` = the M100 subtree's `process`,
`rightProc` = M200's), per the leaf-contract black-box reading of §1/§6
of the spec; the wall clock (`datetime.now()` and the uptime string) is
likewise an environment parameter. -/

/-- One entry of `_workflow_history` (the Python dict keys `id`, `type`,
`timestamp`, `success`, `tokens_used`; `type` is named `wtype` here). -/
structure WorkflowEntry where
  id : String
  wtype : String
  timestamp : String
  success : Bool
  tokens_used : ℤ
deriving DecidableEq

/-- The collaborators and clock of the root node. -/
structure RootEnv where
  leftProc : Req → NodeResult
  rightProc : Req → NodeResult
  leafStatusOf : String → PyVal
  uptime : String
  nowIso : String

/-- The fixed 15-node tree built by `RootOrchestratorNode._init_children`
(M100/M200 factories and their descendants). -/
def m000Tree : BTree :=
  .node "M000"
    (.node "M100"
      (.node "M110" (.leaf "M111") (.leaf "M112"))
      (.node "M120" (.leaf "M121") (.leaf "M122")))
    (.node "M200"
      (.node "M210" (.leaf "M211") (.leaf "M212"))
      (.node "M220" (.leaf "M221") (.leaf "M222")))

/-- `RootOrchestratorNode` state: workflow history, balancer, the tree
shape, and the node account (budget = total budget). -/
structure M000State where
  workflow_history : List WorkflowEntry := []
  balancer : Balancer := { total_budget := 100000 }
  tree : BTree := m000Tree
  account : TokenAccount := { token_allocation := 100000 }

/-- Python f-string formatting with the `04d` spec, for nonnegative `n`. -/
def pad4 (n : ℕ) : String :=
  let s := toString n
  if s.length < 4 then String.mk (List.replicate (4 - s.length) '0') ++ s else s

/-- A `{leaf_id: tokens}` dict as a Python value. -/
def allocsToPy (l : List (String × ℤ)) : PyVal :=
  .pyDict (l.map (fun p => (p.1, .pyInt p.2)))

/-- Round-half-even (the tie rule of Python float formatting), on ℚ. -/
def roundHalfEven (q : ℚ) : ℤ :=
  let f := ⌊q⌋
  let r := q - (f : ℚ)
  if r < 1/2 then f else if 1/2 < r then f + 1 else if f % 2 = 0 then f else f + 1

/-- Python f-string percent formatting with the `.1%` spec, modelled exactly on ℚ. -/
def pctString (q : ℚ) : String :=
  let m := roundHalfEven (q * 1000)
  (if m < 0 then "-" else "") ++
    toString (m.natAbs / 10) ++ "." ++ toString (m.natAbs % 10) ++ "%"

/-- `TokenBalancer.get_utilization_report` as the Python dict value the
root embeds in its status/rebalance results. -/
def utilizationReport (st : Balancer) : PyVal :=
  .pyDict (st.leaf_allocations.map (fun p =>
    (p.1, .pyDict
      [("allocated", .pyInt p.2.allocated),
       ("consumed", .pyInt p.2.consumed),
       ("utilization", .pyStr (pctString p.2.utilization)),
       ("remaining", .pyInt (p.2.allocated - p.2.consumed))])))

/-- The segment loop of `RootOrchestratorNode._get_node_by_path`: any
segment equal to the root id `"M000"` is skipped. -/
def pathWalk : BTree → List String → Option BTree
  | cur, [] => some cur
  | cur, part :: rest =>
      if part = "M000" then pathWalk cur rest
      else
        match cur with
        | .leaf _ => none
        | .node _ l r =>
            if l.node_id = part then pathWalk l rest
            else if r.node_id = part then pathWalk r rest
            else none

/-- `RootOrchestratorNode._get_node_by_path`: walk a dot-separated
path. -/
def getNodeByPath (root : BTree) (path : String) : Option BTree :=
  pathWalk root (path.splitOn ".")

/-- Step 2 of the tenant-report workflow: when the config step
succeeded, `{**tenant_data, **config_result.data.get("tenants", [{}])[0]}`
(each operation can raise); otherwise `tenant_data` unchanged. -/
def tenantMergeStep (ok : Bool) (cfgData td0 : PyVal) : Except String PyVal :=
  if ok then do
    let tenants ← pyGetD cfgData "tenants" (.pyList [.pyDict []])
    let first ← pyIndex0 tenants
    pyMerge td0 first
  else pure td0

/-- `tenant_data["processed"] = tool_result.data`, performed only when
the tool step succeeded. -/
def tenantProcessedStep (ok : Bool) (td toolData : PyVal) :
    Except String PyVal :=
  if ok then pySet td "processed" toolData else pure td

/-- `RootOrchestratorNode._execute_tenant_report_workflow`.  The
`Except` models an exception escaping to `process`'s handler (possible
in the step-2 extraction `config_result.data.get("tenants", [{}])[0]`
and the merge).  On the non-raising path the run is recorded in the
history before returning. -/
def execTenantReport (env : RootEnv) (st : M000State) (data : PyVal) :
    Except String (NodeResult × M000State) := do
  let tokens0 : ℤ := 50
  let workflow_id := "WF-" ++ pad4 (st.workflow_history.length + 1)
  let config_result := env.leftProc
    { emptyReq with action := some "get_tenant_data", include_config := some true }
  let tokens1 := tokens0 + config_result.tokens_used
  let td0 := if pyTruthy data then data else .pyDict []
  let tenant_data ← tenantMergeStep config_result.success config_result.data td0
  let tid ← pyGetD tenant_data "id" (.pyInt 1)
  let tool_result := env.rightProc
    { emptyReq with
        action := some "execute_tool",
        tool := some "get_tenant_info",
        params := some (.pyDict [("tenant_id", tid)]) }
  let tokens2 := tokens1 + tool_result.tokens_used
  let tenant_data2 ← tenantProcessedStep tool_result.success tenant_data
    tool_result.data
  let report_result := env.rightProc
    { emptyReq with
        action := some "generate_report",
        report_type := some "tenant_statement",
        data := some tenant_data2 }
  let tokens3 := tokens2 + report_result.tokens_used
  let entry : WorkflowEntry :=
    { id := workflow_id, wtype := "tenant_report", timestamp := env.nowIso,
      success := report_result.success, tokens_used := tokens3 }
  let result : NodeResult :=
    { success := report_result.success,
      data := .pyDict
        [("workflow_id", .pyStr workflow_id),
         ("steps_completed", .pyInt 4),
         ("config", if config_result.success then config_result.data else .pyNone),
         ("processing", if tool_result.success then tool_result.data else .pyNone),
         ("report", if report_result.success then report_result.data else .pyNone)],
      tokens_used := tokens3, node_id := "M000" }
  .ok (result, { st with workflow_history := st.workflow_history ++ [entry] })

/-- `RootOrchestratorNode._execute_data_sync_workflow` (no history
append in the source). -/
def execDataSync (env : RootEnv) (st : M000State) : NodeResult × M000State :=
  let sync := env.leftProc { emptyReq with action := some "sync_data" }
  let tokens : ℤ := 30 + sync.tokens_used
  ({ success := sync.success, data := sync.data, tokens_used := tokens,
     node_id := "M000" }, st)

/-- `RootOrchestratorNode._execute_full_pipeline` (no history append in
the source; only `data.get("tenant_id", 1)` can raise). -/
def execFullPipeline (env : RootEnv) (st : M000State) (data : PyVal) :
    Except String (NodeResult × M000State) := do
  let tokens0 : ℤ := 100
  let config_result := env.leftProc
    { emptyReq with action := some "get_tenant_data", include_config := some true }
  let steps1 := [("config_load", config_result.success)]
  let tokens1 := tokens0 + config_result.tokens_used
  let tid ← pyGetD data "tenant_id" (.pyInt 1)
  let process_result := env.rightProc
    { emptyReq with
        action := some "execute_tool",
        tool := some "analyze_payments",
        params := some (.pyDict [("tenant_id", tid), ("period", .pyStr "monthly")]) }
  let steps2 := steps1 ++ [("mcp_process", process_result.success)]
  let tokens2 := tokens1 + process_result.tokens_used
  let pdf_result := env.rightProc
    { emptyReq with
        action := some "generate_report",
        report_type := some "payment_history",
        data := some (.pyDict [("payments", .pyList
          [.pyDict [("amount", .pyInt 1500), ("date", .pyStr "2024-01-01"),
                    ("method", .pyStr "check")]])]) }
  let steps3 := steps2 ++ [("pdf_generate", pdf_result.success)]
  let tokens3 := tokens2 + pdf_result.tokens_used
  let all_success := steps3.all (fun p => p.2)
  let result : NodeResult :=
    { success := all_success,
      data := .pyDict
        [("pipeline_steps", .pyList (steps3.map (fun p => .pyList [.pyStr p.1, .pyBool p.2]))),
         ("config", if config_result.success then config_result.data else .pyNone),
         ("analysis", if process_result.success then process_result.data else .pyNone),
         ("report", if pdf_result.success then pdf_result.data else .pyNone)],
      tokens_used := tokens3, node_id := "M000" }
  .ok (result, st)

/-- The success/allocations/utilization result of the `rebalance`
branch. -/
def mkRebalanceResult (rt : String) (allocs : List (String × ℤ))
    (bal : Balancer) : NodeResult :=
  { success := true,
    data := .pyDict
      [("rebalance_type", .pyStr rt),
       ("allocations", allocsToPy allocs),
       ("utilization", utilizationReport bal)],
    tokens_used := 30, node_id := "M000" }

/-- `RootOrchestratorNode.process`.  Exceptions raised inside a workflow
are caught by the surrounding handler, which returns a failed result
with the base cost of 30 and leaves the state untouched. -/
def m000Process (env : RootEnv) (st : M000State) (req : Req) :
    NodeResult × M000State :=
  let action := req.action.getD "status"
  let tokens0 : ℤ := 30
  if action = "initialize" then
    let infra := env.leftProc
      { emptyReq with
          action := some "initialize",
          config_path := some (req.config_path.getD "config/settings.yaml") }
    if !infra.success then
      ({ success := false,
         error := some ("Infrastructure initialization failed: " ++ optStr infra.error),
         tokens_used := tokens0 + infra.tokens_used, node_id := "M000" }, st)
    else
      let app := env.rightProc { emptyReq with action := some "status" }
      let tokens := tokens0 + infra.tokens_used + app.tokens_used
      let (allocs, bal) := balance_tokens st.balancer st.tree
      ({ success := true,
         data := .pyDict
           [("infrastructure", infra.data), ("application", app.data),
            ("token_allocations", allocsToPy allocs),
            ("system_ready", .pyBool true)],
         tokens_used := tokens, node_id := "M000" },
       { st with balancer := bal })
  else if action = "full_workflow" then
    let wt := req.workflow_type.getD "tenant_report"
    let wdata := req.data.getD (.pyDict [])
    if wt = "tenant_report" then
      match execTenantReport env st wdata with
      | .ok out => out
      | .error e =>
          ({ success := false, error := some e, tokens_used := tokens0,
             node_id := "M000" }, st)
    else if wt = "data_sync" then
      execDataSync env st
    else if wt = "full_pipeline" then
      match execFullPipeline env st wdata with
      | .ok out => out
      | .error e =>
          ({ success := false, error := some e, tokens_used := tokens0,
             node_id := "M000" }, st)
    else
      ({ success := false, error := some ("Unknown workflow type: " ++ wt),
         tokens_used := tokens0, node_id := "M000" }, st)
  else if action = "route_request" then
    let target := req.target.getD "M100"
    let fwd := req.request.getD emptyReq
    if pyStarts target "M1" then
      let r := env.leftProc fwd
      ({ success := r.success, data := r.data, error := r.error,
         tokens_used := tokens0 + r.tokens_used, node_id := "M000" }, st)
    else if pyStarts target "M2" then
      let r := env.rightProc fwd
      ({ success := r.success, data := r.data, error := r.error,
         tokens_used := tokens0 + r.tokens_used, node_id := "M000" }, st)
    else
      ({ success := false, error := some ("Unknown target: " ++ target),
         tokens_used := tokens0, node_id := "M000" }, st)
  else if action = "rebalance" then
    let rt := req.rtype.getD "full"
    if rt = "full" then
      let (allocs, bal) := rebalance_full st.balancer st.tree
      (mkRebalanceResult rt allocs bal, { st with balancer := bal })
    else
      let targetNode :=
        match req.target with
        | none => some st.tree
        | some p => if p = "" then some st.tree else getNodeByPath st.tree p
      match targetNode with
      | none =>
          -- `rebalance_partial(None)` returns `{}`, balancer untouched
          (mkRebalanceResult rt [] st.balancer, st)
      | some n =>
          let (allocs, bal) := rebalance_partial st.balancer n
          (mkRebalanceResult rt allocs bal, { st with balancer := bal })
  else if action = "status" then
    let infra := env.leftProc { emptyReq with action := some "system_status" }
    let app := env.rightProc { emptyReq with action := some "status" }
    let tokens := tokens0 + infra.tokens_used + app.tokens_used
    let leaves := st.tree.leafIds
    ({ success := true,
       data := .pyDict
         [("system_uptime", .pyStr env.uptime),
          ("tree_structure", .pyDict
            [("total_nodes", .pyInt 15), ("levels", .pyInt 4),
             ("leaves", .pyInt leaves.length)]),
          ("infrastructure", if infra.success then infra.data else .pyDict []),
          ("application", if app.success then app.data else .pyDict []),
          ("token_utilization", utilizationReport st.balancer),
          ("leaf_nodes", .pyDict (leaves.map (fun i => (i, env.leafStatusOf i)))),
          ("workflow_count", .pyInt st.workflow_history.length)],
       tokens_used := tokens, node_id := "M000" }, st)
  else if action = "get_capabilities" then
    let app_caps := env.rightProc { emptyReq with action := some "capabilities" }
    let tokens := tokens0 + app_caps.tokens_used
    ({ success := true,
       data := .pyDict
         [("infrastructure_actions", .pyList
            (["initialize", "get_tenant_data", "save_tenant", "config_update",
              "sync_data"].map .pyStr)),
          ("application_actions", if app_caps.success then app_caps.data else .pyDict []),
          ("system_actions", .pyList
            (["initialize", "full_workflow", "route_request", "rebalance",
              "status", "get_capabilities"].map .pyStr))],
       tokens_used := tokens, node_id := "M000" }, st)
  else
    ({ success := false, error := some ("Unknown action: " ++ action),
       tokens_used := tokens0, node_id := "M000" }, st)

/-- The action strings `RootOrchestratorNode.process` dispatches on. -/
def recognizedRootActions : List String :=
  ["initialize", "full_workflow", "route_request", "rebalance", "status",
   "get_capabilities"]

/-! ## Concrete fixtures used by the closed theorems below -/

/-- Default weights (`NodeWeight()` for every id). -/
def nwDefault : WeightMap := fun _ => {}

/-- Weights whose `complexity` factor is `0`, making every total weight
zero. -/
def nwZero : WeightMap := fun _ => { complexity := 0 }

/-- A two-leaf tree. -/
def treeAB : BTree := .node "R" (.leaf "A") (.leaf "B")

/-- A fresh balancer with budget 100 over default weights. -/
def balAB : Balancer := { total_budget := 100 }

/-- A balancer in which leaf `A` has fully consumed its allocation
(utilization `1.0 > 0.8`) and `B` has consumed nothing
(utilization `0.0 < 0.2`). -/
def stC2 : Balancer :=
  { total_budget := 100,
    leaf_allocations :=
      [("A", { node_id := "A", allocated := 50, consumed := 50 }),
       ("B", { node_id := "B", allocated := 50 })] }

/-- An M111 leaf whose allocation has been set to `0` by the allocator
(no tokens available). -/
def m111Zero : M111State :=
  { connected := true, storage := [], account := { token_allocation := 0 } }

/-- A `write` request with an empty payload (`str({}) = 2` bytes). -/
def reqWriteEmpty : Req :=
  { emptyReq with action := some "write", data := some (.pyDict []) }

/-- A child result that always succeeds with no cost. -/
def okResult : NodeResult :=
  { success := true, data := .pyNone, tokens_used := 0, node_id := "" }

/-- A child result that always fails with no cost. -/
def failResult : NodeResult :=
  { success := false, data := .pyNone, error := some "mock failure",
    tokens_used := 0, node_id := "" }

/-- A root environment whose children always succeed. -/
def envOk : RootEnv :=
  { leftProc := fun _ => okResult, rightProc := fun _ => okResult,
    leafStatusOf := fun _ => .pyNone, uptime := "0:00:00",
    nowIso := "2024-01-01T00:00:00" }

/-- A root environment whose children always fail. -/
def envFail : RootEnv :=
  { envOk with leftProc := fun _ => failResult, rightProc := fun _ => failResult }

/-- A root environment in which the right subtree answers successfully
and distinguishably. -/
def envRoute : RootEnv :=
  { envOk with rightProc := fun _ =>
      { success := true, data := .pyStr "right-subtree", tokens_used := 9,
        node_id := "M200" } }

/-- A fresh root state. -/
def st000 : M000State := {}

/-- A `full_workflow` request for the `full_pipeline` workflow. -/
def reqFullPipeline : Req :=
  { emptyReq with action := some "full_workflow",
                  workflow_type := some "full_pipeline" }

/-- A `full_workflow` request for the `tenant_report` workflow. -/
def reqTenantReport : Req :=
  { emptyReq with action := some "full_workflow",
                  workflow_type := some "tenant_report" }

/-- A `route_request` whose target starts with neither `M1` nor `M2`. -/
def reqRouteX : Req :=
  { emptyReq with action := some "route_request", target := some "X000" }

/-- A `full_workflow` request for the `data_sync` workflow. -/
def reqDataSync : Req :=
  { emptyReq with action := some "full_workflow",
                  workflow_type := some "data_sync" }

/-- The history entry written by the first tenant_report run under
`envFail`. -/
def wfEntry1 : WorkflowEntry :=
  { id := "WF-0001", wtype := "tenant_report",
    timestamp := "2024-01-01T00:00:00", success := false, tokens_used := 50 }

/-- The history entry written by the second tenant_report run under
`envFail`. -/
def wfEntry2 : WorkflowEntry :=
  { id := "WF-0002", wtype := "tenant_report",
    timestamp := "2024-01-01T00:00:00", success := false, tokens_used := 50 }

/-- The result of a tenant_report run under `envFail` (all steps fail,
so the payload fields are `None`). -/
def trResult (wid : String) : NodeResult :=
  { success := false,
    data := .pyDict
      [("workflow_id", .pyStr wid), ("steps_completed", .pyInt 4),
       ("config", .pyNone), ("processing", .pyNone), ("report", .pyNone)],
    tokens_used := 50, node_id := "M000" }

/-- State after one tenant_report run under `envFail`. -/
def trState1 : M000State := { st000 with workflow_history := [wfEntry1] }

/-- State after two tenant_report runs under `envFail`. -/
def trState2 : M000State :=
  { st000 with workflow_history := [wfEntry1, wfEntry2] }

/-! ## Dictionary lemmas -/

theorem dictGet?_dictSet_self {α : Type} (m : List (String × α)) (k : String)
    (v : α) : dictGet? (dictSet m k v) k = some v := by
  induction m with
  | nil => simp [dictSet, dictGet?]
  | cons p rest ih =>
      obtain ⟨k', v'⟩ := p
      by_cases h : k' = k
      · simp [dictSet, h, dictGet?]
      · simp [dictSet, h, dictGet?, ih]

theorem dictGet?_dictSet_ne {α : Type} (m : List (String × α)) (k x : String)
    (v : α) (h : x ≠ k) : dictGet? (dictSet m k v) x = dictGet? m x := by
  induction m with
  | nil =>
      simp only [dictSet, dictGet?]
      rw [if_neg (fun hc : k = x => h hc.symm)]
  | cons p rest ih =>
      obtain ⟨k', v'⟩ := p
      by_cases hk : k' = k
      · subst hk
        simp only [dictSet, if_pos rfl, dictGet?]
        rw [if_neg (fun hc : k' = x => h hc.symm),
            if_neg (fun hc : k' = x => h hc.symm)]
      · simp only [dictSet, if_neg hk, dictGet?]
        by_cases hx : k' = x
        · rw [if_pos hx, if_pos hx]
        · rw [if_neg hx, if_neg hx, ih]

theorem dictGet?_dictDel_ne {α : Type} (m : List (String × α)) (k x : String)
    (h : x ≠ k) : dictGet? (dictDel m k) x = dictGet? m x := by
  induction m with
  | nil => simp [dictDel]
  | cons p rest ih =>
      obtain ⟨k', v'⟩ := p
      by_cases hk : k' = k
      · subst hk
        have hxk : ¬ k' = x := fun hc => h hc.symm
        simp [dictDel, dictGet?, ih, hxk]
      · simp only [dictDel, if_neg hk, dictGet?]
        by_cases hx : k' = x
        · rw [if_pos hx, if_pos hx]
        · rw [if_neg hx, if_neg hx, ih]

/-! ## Frame and value lemmas for `_distribute` -/

theorem dictGet?_distribute_notin (nw : WeightMap) (t : BTree) (b : ℤ)
    (m : AllocMap) (x : String) (hx : x ∉ t.leafIds) :
    dictGet? (distribute nw t b m) x = dictGet? m x := by
  induction t generalizing b m with
  | leaf i =>
      have : x ≠ i := by simpa [BTree.leafIds] using hx
      simp [distribute, dictGet?_dictSet_ne _ _ _ _ this]
  | node i l r ihl ihr =>
      rw [BTree.leafIds, List.mem_append] at hx
      push_neg at hx
      rw [distribute, ihr _ _ hx.2, ihl _ _ hx.1]

theorem getAlloc_congr (m₁ m₂ : AllocMap) (x : String)
    (h : dictGet? m₁ x = dictGet? m₂ x) : getAlloc m₁ x = getAlloc m₂ x := by
  simp [getAlloc, h]

theorem getAlloc_distribute (nw : WeightMap) (t : BTree) (b : ℤ)
    (m : AllocMap) (x : String) (hnd : t.leafIds.Nodup) (hx : x ∈ t.leafIds) :
    getAlloc (distribute nw t b m) x = leafAlloc nw t b x := by
  induction t generalizing b m with
  | leaf i =>
      have : x = i := by simpa [BTree.leafIds] using hx
      subst this
      simp [distribute, leafAlloc, getAlloc, dictGet?_dictSet_self]
  | node i l r ihl ihr =>
      rw [BTree.leafIds, List.nodup_append] at hnd
      obtain ⟨hndl, hndr, hdisj⟩ := hnd
      rw [BTree.leafIds, List.mem_append] at hx
      rw [distribute, leafAlloc]
      rcases hx with hxl | hxr
      · have hxnr : x ∉ r.leafIds := hdisj hxl
        rw [if_pos hxl]
        rw [getAlloc_congr _ _ _ (dictGet?_distribute_notin nw r _ _ x hxnr)]
        exact ihl _ _ hndl hxl
      · have hxnl : x ∉ l.leafIds := fun hc => hdisj hc hxr
        rw [if_neg hxnl]
        exact ihr _ _ hndr hxr

/-! ## Conservation -/

theorem sumAlloc_congr (m₁ m₂ : AllocMap) (ids : List String)
    (h : ∀ i ∈ ids, getAlloc m₁ i = getAlloc m₂ i) :
    sumAlloc m₁ ids = sumAlloc m₂ ids := by
  unfold sumAlloc
  congr 1
  exact List.map_congr_left h

theorem sumAlloc_append (m : AllocMap) (ids₁ ids₂ : List String) :
    sumAlloc m (ids₁ ++ ids₂) = sumAlloc m ids₁ + sumAlloc m ids₂ := by
  simp [sumAlloc]

theorem sumAlloc_distribute (nw : WeightMap) (t : BTree) (b : ℤ)
    (m : AllocMap) (hnd : t.leafIds.Nodup) :
    sumAlloc (distribute nw t b m) t.leafIds = b := by
  induction t generalizing b m with
  | leaf i =>
      simp [distribute, BTree.leafIds, sumAlloc, getAlloc, dictGet?_dictSet_self]
  | node i l r ihl ihr =>
      rw [BTree.leafIds, List.nodup_append] at hnd
      obtain ⟨hndl, hndr, hdisj⟩ := hnd
      rw [distribute, BTree.leafIds, sumAlloc_append]
      have hleft :
          sumAlloc (distribute nw r (b - leftShare (subtreeWeight nw l) (subtreeWeight nw r) b)
              (distribute nw l (leftShare (subtreeWeight nw l) (subtreeWeight nw r) b) m))
            l.leafIds =
          sumAlloc (distribute nw l (leftShare (subtreeWeight nw l) (subtreeWeight nw r) b) m)
            l.leafIds := by
        apply sumAlloc_congr
        intro i hi
        exact getAlloc_congr _ _ _ (dictGet?_distribute_notin nw r _ _ i (hdisj hi))
      rw [hleft, ihl _ _ hndl, ihr _ _ hndr]
      ring

/-! ## Arithmetic of the proportional split -/

theorem pyInt_of_nonneg {q : ℚ} (h : 0 ≤ q) : pyInt q = ⌊q⌋ := if_pos h

theorem shareDenom_pos (lw rw : ℚ) (hl : 0 ≤ lw) (hr : 0 ≤ rw) :
    0 < (if lw + rw = 0 then 1 else lw + rw) := by
  by_cases h : lw + rw = 0
  · rw [if_pos h]; norm_num
  · rw [if_neg h]; exact lt_of_le_of_ne (add_nonneg hl hr) (Ne.symm h)

theorem shareRatio_nonneg (lw rw : ℚ) (hl : 0 ≤ lw) (hr : 0 ≤ rw) :
    0 ≤ lw / (if lw + rw = 0 then 1 else lw + rw) :=
  div_nonneg hl (shareDenom_pos lw rw hl hr).le

theorem shareRatio_le_one (lw rw : ℚ) (hl : 0 ≤ lw) (hr : 0 ≤ rw) :
    lw / (if lw + rw = 0 then 1 else lw + rw) ≤ 1 := by
  by_cases h : lw + rw = 0
  · rw [if_pos h]
    have : lw = 0 := le_antisymm (by linarith) hl
    simp [this]
  · rw [if_neg h, div_le_one (lt_of_le_of_ne (add_nonneg hl hr) (Ne.symm h))]
    linarith

theorem leftShare_eq_floor (lw rw : ℚ) (b : ℤ) (hl : 0 ≤ lw) (hr : 0 ≤ rw)
    (hb : 0 ≤ b) :
    leftShare lw rw b =
      ⌊(b : ℚ) * (lw / (if lw + rw = 0 then 1 else lw + rw))⌋ :=
  pyInt_of_nonneg
    (mul_nonneg (by exact_mod_cast hb) (shareRatio_nonneg lw rw hl hr))

theorem leftShare_nonneg (lw rw : ℚ) (b : ℤ) (hl : 0 ≤ lw) (hr : 0 ≤ rw)
    (hb : 0 ≤ b) : 0 ≤ leftShare lw rw b := by
  rw [leftShare_eq_floor lw rw b hl hr hb]
  apply Int.le_floor.mpr
  push_cast
  exact mul_nonneg (by exact_mod_cast hb) (shareRatio_nonneg lw rw hl hr)

theorem leftShare_le_budget (lw rw : ℚ) (b : ℤ) (hl : 0 ≤ lw) (hr : 0 ≤ rw)
    (hb : 0 ≤ b) : leftShare lw rw b ≤ b := by
  rw [leftShare_eq_floor lw rw b hl hr hb]
  have h1 : (b : ℚ) * (lw / (if lw + rw = 0 then 1 else lw + rw)) ≤ (b : ℚ) :=
    mul_le_of_le_one_right (by exact_mod_cast hb) (shareRatio_le_one lw rw hl hr)
  calc ⌊(b : ℚ) * (lw / (if lw + rw = 0 then 1 else lw + rw))⌋
      ≤ ⌊(b : ℚ)⌋ := Int.floor_le_floor h1
    _ = b := Int.floor_intCast b

theorem leftShare_mono (lw lw' rw : ℚ) (b b' : ℤ) (hl : 0 ≤ lw) (hll : lw ≤ lw')
    (hr : 0 ≤ rw) (hb : 0 ≤ b) (hbb : b ≤ b') :
    leftShare lw rw b ≤ leftShare lw' rw b' := by
  have hl' : 0 ≤ lw' := le_trans hl hll
  have hb' : 0 ≤ b' := le_trans hb hbb
  rw [leftShare_eq_floor lw rw b hl hr hb, leftShare_eq_floor lw' rw b' hl' hr hb']
  apply Int.floor_le_floor
  by_cases h0 : lw + rw = 0
  · have hlz : lw = 0 := le_antisymm (by linarith) hl
    rw [hlz]
    simp only [zero_div, mul_zero]
    exact mul_nonneg (by exact_mod_cast hb') (shareRatio_nonneg lw' rw hl' hr)
  · have hpos : 0 < lw + rw := lt_of_le_of_ne (add_nonneg hl hr) (Ne.symm h0)
    have hpos' : 0 < lw' + rw := by linarith
    rw [if_neg h0, if_neg hpos'.ne']
    have hfrac : lw / (lw + rw) ≤ lw' / (lw' + rw) := by
      rw [div_le_div_iff hpos hpos']
      nlinarith
    exact mul_le_mul (by exact_mod_cast hbb) hfrac
      (div_nonneg hl hpos.le) (by exact_mod_cast hb')

theorem leftShare_anti_rw (lw rw rw' : ℚ) (b : ℤ) (hl : 0 ≤ lw) (hr : 0 ≤ rw)
    (hrr : rw ≤ rw') (hb : 0 ≤ b) :
    leftShare lw rw' b ≤ leftShare lw rw b := by
  have hr' : 0 ≤ rw' := le_trans hr hrr
  rw [leftShare_eq_floor lw rw' b hl hr' hb, leftShare_eq_floor lw rw b hl hr hb]
  apply Int.floor_le_floor
  by_cases hlz : lw = 0
  · simp [hlz]
  · have hlp : 0 < lw := lt_of_le_of_ne hl (Ne.symm hlz)
    have h1 : 0 < lw + rw := by linarith
    have h2 : 0 < lw + rw' := by linarith
    rw [if_neg h1.ne', if_neg h2.ne']
    apply mul_le_mul_of_nonneg_left _ (by exact_mod_cast hb)
    rw [div_le_div_iff h2 h1]
    nlinarith

theorem budget_sub_floor_mono (f : ℚ) (b b' : ℤ) (hf0 : 0 ≤ f) (hf1 : f ≤ 1)
    (hbb : b ≤ b') :
    b - ⌊(b : ℚ) * f⌋ ≤ b' - ⌊(b' : ℚ) * f⌋ := by
  have hd : (0:ℚ) ≤ ((b' : ℚ) - (b : ℚ)) := by
    have : (b : ℚ) ≤ (b' : ℚ) := by exact_mod_cast hbb
    linarith
  have key : ⌊(b' : ℚ) * f⌋ ≤ ⌊(b : ℚ) * f⌋ + (b' - b) := by
    rw [← Int.floor_add_int ((b : ℚ) * f) (b' - b)]
    apply Int.floor_le_floor
    have h1 : ((b' : ℚ) - (b : ℚ)) * f ≤ ((b' : ℚ) - (b : ℚ)) * 1 :=
      mul_le_mul_of_nonneg_left hf1 hd
    push_cast
    nlinarith
  omega

theorem rightShare_nonneg (lw rw : ℚ) (b : ℤ) (hl : 0 ≤ lw) (hr : 0 ≤ rw)
    (hb : 0 ≤ b) : 0 ≤ rightShare lw rw b := by
  have := leftShare_le_budget lw rw b hl hr hb
  unfold rightShare
  omega

theorem rightShare_mono (lw rw rw' : ℚ) (b b' : ℤ) (hl : 0 ≤ lw) (hr : 0 ≤ rw)
    (hrr : rw ≤ rw') (hb : 0 ≤ b) (hbb : b ≤ b') :
    rightShare lw rw b ≤ rightShare lw rw' b' := by
  unfold rightShare
  have hb' : 0 ≤ b' := le_trans hb hbb
  have step1 : leftShare lw rw' b' ≤ leftShare lw rw b' :=
    leftShare_anti_rw lw rw rw' b' hl hr hrr hb'
  have step2 : b - leftShare lw rw b ≤ b' - leftShare lw rw b' := by
    rw [leftShare_eq_floor lw rw b hl hr hb, leftShare_eq_floor lw rw b' hl hr hb']
    exact budget_sub_floor_mono _ b b' (shareRatio_nonneg lw rw hl hr)
      (shareRatio_le_one lw rw hl hr) hbb
  omega

/-! ## Subtree weights -/

theorem subtreeWeight_nonneg (nw : WeightMap) (t : BTree)
    (h : ∀ i, 0 ≤ (nw i).total_weight) : 0 ≤ subtreeWeight nw t := by
  induction t with
  | leaf i => exact h i
  | node i l r ihl ihr =>
      simp only [subtreeWeight]
      exact add_nonneg ihl ihr

theorem subtreeWeight_congr (nw nw' : WeightMap) (t : BTree) (x : String)
    (hx : x ∉ t.leafIds) (h : ∀ i, i ≠ x → nw' i = nw i) :
    subtreeWeight nw' t = subtreeWeight nw t := by
  induction t with
  | leaf i =>
      have hix : i ≠ x := fun hc => by simp [BTree.leafIds, hc] at hx
      simp [subtreeWeight, h i hix]
  | node i l r ihl ihr =>
      rw [BTree.leafIds, List.mem_append] at hx
      push_neg at hx
      simp [subtreeWeight, ihl hx.1, ihr hx.2]

theorem subtreeWeight_mono (nw nw' : WeightMap) (t : BTree)
    (h : ∀ i, (nw i).total_weight ≤ (nw' i).total_weight) :
    subtreeWeight nw t ≤ subtreeWeight nw' t := by
  induction t with
  | leaf i => exact h i
  | node i l r ihl ihr =>
      simp only [subtreeWeight]
      exact add_le_add ihl ihr

/-- C1: for every tree with distinct leaf ids and every nonnegative
budget, the distribution pass of `balance_tokens` / `_distribute`
produces leaf allocations summing exactly to the budget, and at every
internal node the left child receives the floor of
`budget * left_weight / total_weight` while the right child receives
exactly the remainder, so the two children's shares sum to the parent's
share. -/
theorem C1_budget_conservation (st : Balancer) (t : BTree)
    (hnd : t.leafIds.Nodup) (hb : 0 ≤ st.total_budget)
    (hw : ∀ i, 0 ≤ (st.node_weights i).total_weight) :
    sumAlloc ((balance_tokens st t).2.leaf_allocations) t.leafIds =
      st.total_budget ∧
    ∀ (l r : BTree) (b : ℤ), 0 ≤ b →
      leftShare (subtreeWeight st.node_weights l) (subtreeWeight st.node_weights r) b =
        ⌊(b : ℚ) * (subtreeWeight st.node_weights l /
          (if subtreeWeight st.node_weights l + subtreeWeight st.node_weights r = 0
           then 1
           else subtreeWeight st.node_weights l + subtreeWeight st.node_weights r))⌋ ∧
      leftShare (subtreeWeight st.node_weights l) (subtreeWeight st.node_weights r) b +
        rightShare (subtreeWeight st.node_weights l) (subtreeWeight st.node_weights r) b = b := by
  constructor
  · exact sumAlloc_distribute _ _ _ _ hnd
  · intro l r b hb0
    refine ⟨leftShare_eq_floor _ _ _ (subtreeWeight_nonneg _ _ hw)
      (subtreeWeight_nonneg _ _ hw) hb0, ?_⟩
    unfold rightShare
    ring

/-- C1 witness: the two-leaf tree with default weights and budget 100
conserves the budget, and the shares at the root are the floor split
50/50. -/
theorem C1_budget_conservation_witness :
    sumAlloc ((balance_tokens balAB treeAB).2.leaf_allocations) treeAB.leafIds = 100 ∧
    leftShare (subtreeWeight balAB.node_weights (.leaf "A"))
        (subtreeWeight balAB.node_weights (.leaf "B")) 100 +
      rightShare (subtreeWeight balAB.node_weights (.leaf "A"))
        (subtreeWeight balAB.node_weights (.leaf "B")) 100 = 100 := by
  have h := C1_budget_conservation balAB treeAB (by decide)
    (by norm_num [balAB])
    (fun i => by norm_num [balAB, NodeWeight.total_weight])
  exact ⟨h.1, (h.2 (.leaf "A") (.leaf "B") 100 (by norm_num)).2⟩

/-! ## Weight monotonicity -/

theorem total_weight_nonneg (w : NodeWeight) (h : WeightNonneg w) :
    0 ≤ w.total_weight := by
  obtain ⟨h1, h2, h3, h4⟩ := h
  have hq : (0:ℚ) ≤ (w.queue_depth : ℚ) := by exact_mod_cast h2
  have hp : (0:ℚ) ≤ (w.priority : ℚ) := by exact_mod_cast h4
  have hK : (0:ℚ) ≤ 1 + (w.queue_depth : ℚ) * (1/10) := by nlinarith
  have hP : (0:ℚ) ≤ (w.priority : ℚ) / 5 := by linarith
  unfold NodeWeight.total_weight
  exact mul_nonneg (mul_nonneg (mul_nonneg h1 h3) hK) hP

theorem applyUpdate_incr (w : NodeWeight) (u : WeightUpdate) (h : WeightNonneg w)
    (hu : IncreasesOneFactor w u) :
    w.total_weight ≤ (applyUpdate w u).total_weight ∧
      WeightNonneg (applyUpdate w u) := by
  obtain ⟨h1, h2, h3, h4⟩ := h
  have hq : (0:ℚ) ≤ (w.queue_depth : ℚ) := by exact_mod_cast h2
  have hp : (0:ℚ) ≤ (w.priority : ℚ) := by exact_mod_cast h4
  have hK : (0:ℚ) ≤ 1 + (w.queue_depth : ℚ) * (1/10) := by nlinarith
  have hP : (0:ℚ) ≤ (w.priority : ℚ) / 5 := by linarith
  rcases hu with ⟨v, hv, rfl⟩ | ⟨v, hv, rfl⟩ | ⟨v, hv, rfl⟩
  · constructor
    · simp only [NodeWeight.total_weight, applyUpdate, Option.getD_some,
        Option.getD_none]
      have step1 : w.historical_usage * w.complexity ≤ v * w.complexity :=
        mul_le_mul_of_nonneg_right hv h3
      have step2 := mul_le_mul_of_nonneg_right step1 hK
      exact mul_le_mul_of_nonneg_right step2 hP
    · exact ⟨by simpa [applyUpdate] using le_trans h1 hv,
        by simpa [applyUpdate] using h2,
        by simpa [applyUpdate] using h3,
        by simpa [applyUpdate] using h4⟩
  · constructor
    · simp only [NodeWeight.total_weight, applyUpdate, Option.getD_some,
        Option.getD_none]
      have step1 : w.historical_usage * w.complexity ≤ w.historical_usage * v :=
        mul_le_mul_of_nonneg_left hv h1
      have step2 := mul_le_mul_of_nonneg_right step1 hK
      exact mul_le_mul_of_nonneg_right step2 hP
    · exact ⟨by simpa [applyUpdate] using h1,
        by simpa [applyUpdate] using h2,
        by simpa [applyUpdate] using le_trans h3 hv,
        by simpa [applyUpdate] using h4⟩
  · constructor
    · simp only [NodeWeight.total_weight, applyUpdate, Option.getD_some,
        Option.getD_none]
      have hvq : (w.priority : ℚ) / 5 ≤ (v : ℚ) / 5 := by
        have : (w.priority : ℚ) ≤ (v : ℚ) := by exact_mod_cast hv
        linarith
      exact mul_le_mul_of_nonneg_left hvq
        (mul_nonneg (mul_nonneg h1 h3) hK)
    · exact ⟨by simpa [applyUpdate] using h1,
        by simpa [applyUpdate] using h2,
        by simpa [applyUpdate] using h3,
        by simpa [applyUpdate] using le_trans h4 hv⟩

theorem leafAlloc_mono (nw nw' : WeightMap) (x : String)
    (hnn : ∀ i, 0 ≤ (nw i).total_weight) (hnn' : ∀ i, 0 ≤ (nw' i).total_weight)
    (heq : ∀ i, i ≠ x → nw' i = nw i)
    (hpt : ∀ i, (nw i).total_weight ≤ (nw' i).total_weight) :
    ∀ (t : BTree) (b b' : ℤ), t.leafIds.Nodup → x ∈ t.leafIds → 0 ≤ b →
      b ≤ b' → leafAlloc nw t b x ≤ leafAlloc nw' t b' x := by
  intro t
  induction t with
  | leaf i =>
      intro b b' _ _ _ hbb
      simpa [leafAlloc] using hbb
  | node i l r ihl ihr =>
      intro b b' hnd hmem hb hbb
      rw [BTree.leafIds, List.nodup_append] at hnd
      obtain ⟨hndl, hndr, hdisj⟩ := hnd
      rw [BTree.leafIds, List.mem_append] at hmem
      rw [leafAlloc, leafAlloc]
      have hwl := subtreeWeight_nonneg nw l hnn
      have hwr := subtreeWeight_nonneg nw r hnn
      have hwl' := subtreeWeight_nonneg nw' l hnn'
      have hwr' := subtreeWeight_nonneg nw' r hnn'
      rcases hmem with hxl | hxr
      · have hxnr : x ∉ r.leafIds := hdisj hxl
        have hrw : subtreeWeight nw' r = subtreeWeight nw r :=
          subtreeWeight_congr nw nw' r x hxnr heq
        rw [if_pos hxl, if_pos hxl, hrw]
        exact ihl _ _ hndl hxl
          (leftShare_nonneg _ _ _ hwl hwr hb)
          (leftShare_mono _ _ _ _ _ hwl (subtreeWeight_mono nw nw' l hpt) hwr hb hbb)
      · have hxnl : x ∉ l.leafIds := fun hc => hdisj hc hxr
        have hlw : subtreeWeight nw' l = subtreeWeight nw l :=
          subtreeWeight_congr nw nw' l x hxnl heq
        rw [if_neg hxnl, if_neg hxnl, hlw]
        have hmono :
            b - leftShare (subtreeWeight nw l) (subtreeWeight nw r) b ≤
            b' - leftShare (subtreeWeight nw l) (subtreeWeight nw' r) b' := by
          have := rightShare_mono (subtreeWeight nw l) (subtreeWeight nw r)
            (subtreeWeight nw' r) b b' hwl hwr
            (subtreeWeight_mono nw nw' r hpt) hb hbb
          unfold rightShare at this
          omega
        have hnonneg :
            0 ≤ b - leftShare (subtreeWeight nw l) (subtreeWeight nw r) b := by
          have := leftShare_le_budget (subtreeWeight nw l) (subtreeWeight nw r) b hwl hwr hb
          omega
        exact ihr _ _ hndr hxr hnonneg hmono

/-- C5: increasing one of a leaf's `priority`, `historical_usage` or
`complexity` weight factors through `update_weight` (all other weights
and the budget fixed, factors in their documented nonnegative domain)
and rerunning the distribution never decreases that leaf's
allocation. -/
theorem C5_weight_monotonicity (st : Balancer) (t : BTree) (x : String)
    (u : WeightUpdate) (hnd : t.leafIds.Nodup) (hx : x ∈ t.leafIds)
    (hb : 0 ≤ st.total_budget)
    (hnn : ∀ i, WeightNonneg (st.node_weights i))
    (hu : IncreasesOneFactor (st.node_weights x) u) :
    getAlloc ((balance_tokens st t).2.leaf_allocations) x ≤
      getAlloc ((balance_tokens (update_weight st x u) t).2.leaf_allocations) x := by
  have hincr := applyUpdate_incr (st.node_weights x) u (hnn x) hu
  set nw := st.node_weights with hnw
  set nw' := (update_weight st x u).node_weights with hnw'
  have heq : ∀ i, i ≠ x → nw' i = nw i := by
    intro i hi
    simp [hnw', update_weight, hi]
  have hxval : nw' x = applyUpdate (nw x) u := by
    simp [hnw', update_weight]
  have hnn0 : ∀ i, 0 ≤ (nw i).total_weight :=
    fun i => total_weight_nonneg _ (hnn i)
  have hnn0' : ∀ i, 0 ≤ (nw' i).total_weight := by
    intro i
    by_cases hi : i = x
    · rw [hi, hxval]
      exact total_weight_nonneg _ hincr.2
    · rw [heq i hi]
      exact hnn0 i
  have hpt : ∀ i, (nw i).total_weight ≤ (nw' i).total_weight := by
    intro i
    by_cases hi : i = x
    · rw [hi, hxval]
      exact hincr.1
    · rw [heq i hi]
  have hb' : (update_weight st x u).total_budget = st.total_budget := rfl
  have e1 : getAlloc ((balance_tokens st t).2.leaf_allocations) x =
      leafAlloc nw t st.total_budget x :=
    getAlloc_distribute nw t st.total_budget st.leaf_allocations x hnd hx
  have e2 : getAlloc ((balance_tokens (update_weight st x u) t).2.leaf_allocations) x =
      leafAlloc nw' t st.total_budget x :=
    getAlloc_distribute nw' t st.total_budget st.leaf_allocations x hnd hx
  rw [e1, e2]
  exact leafAlloc_mono nw nw' x hnn0 hnn0' heq hpt t st.total_budget
    st.total_budget hnd hx hb le_rfl

/-- C5 witness: on the two-leaf tree with default weights and budget
100, raising the priority of leaf `A` from 5 to 10 raises its allocation
(from 50 to 66 ≥ 50). -/
theorem C5_weight_monotonicity_witness :
    getAlloc ((balance_tokens balAB treeAB).2.leaf_allocations) "A" ≤
      getAlloc ((balance_tokens
        (update_weight balAB "A" { priority := some 10 }) treeAB).2.leaf_allocations) "A" :=
  C5_weight_monotonicity balAB treeAB "A" { priority := some 10 }
    (by decide) (by decide) (by norm_num [balAB])
    (fun i => by
      refine ⟨?_, ?_, ?_, ?_⟩ <;> norm_num [balAB])
    (Or.inr (Or.inr ⟨10, by norm_num [balAB], rfl⟩))

/-! ## Partial rebalance -/

theorem dictGet?_clearSubtree_notin (m : AllocMap) (t : BTree) (x : String)
    (hx : x ∉ t.leafIds) : dictGet? (clearSubtree m t) x = dictGet? m x := by
  induction t generalizing m with
  | leaf i =>
      have : x ≠ i := by simpa [BTree.leafIds] using hx
      simp [clearSubtree, dictGet?_dictDel_ne _ _ _ this]
  | node i l r ihl ihr =>
      rw [BTree.leafIds, List.mem_append] at hx
      push_neg at hx
      simp only [clearSubtree]
      rw [ihr _ hx.2, ihl _ hx.1]

theorem subtreeBudget_eq_sumAlloc (st : Balancer) (t : BTree) :
    subtreeBudget st t = sumAlloc st.leaf_allocations t.leafIds := by
  induction t with
  | leaf i =>
      simp [subtreeBudget, sumAlloc, get_allocation, getAlloc, BTree.leafIds]
  | node i l r ihl ihr =>
      simp [subtreeBudget, BTree.leafIds, sumAlloc_append, ihl, ihr]

/-- C3: `rebalance_partial` on a subtree root uses as its budget the sum
of the current allocations of that subtree's leaves (0 when none are
recorded), clears and redistributes only the records of leaves inside
the subtree (the redistributed total equals that budget), and leaves the
full record of every id outside the subtree untouched. -/
theorem C3_partial_rebalance_isolation (st : Balancer) (t : BTree)
    (hnd : t.leafIds.Nodup) :
    (∀ x, x ∉ t.leafIds →
      dictGet? (( rebalance_partial st t).2.leaf_allocations) x =
        dictGet? st.leaf_allocations x) ∧
    sumAlloc (( rebalance_partial st t).2.leaf_allocations) t.leafIds =
      subtreeBudget st t ∧
    subtreeBudget st t = sumAlloc st.leaf_allocations t.leafIds := by
  refine ⟨?_, ?_, subtreeBudget_eq_sumAlloc st t⟩
  · intro x hx
    show dictGet? (distribute st.node_weights t (subtreeBudget st t)
      (clearSubtree st.leaf_allocations t)) x = dictGet? st.leaf_allocations x
    rw [dictGet?_distribute_notin _ _ _ _ _ hx,
      dictGet?_clearSubtree_notin _ _ _ hx]
  · show sumAlloc (distribute st.node_weights t (subtreeBudget st t)
      (clearSubtree st.leaf_allocations t)) t.leafIds = subtreeBudget st t
    exact sumAlloc_distribute _ _ _ _ hnd

/-- C3 witness: in the balancer where `A` and `B` each hold 50 tokens,
a partial rebalance of the one-leaf subtree `A` leaves the record of
`B` untouched and redistributes exactly the 50 tokens of `A`. -/
theorem C3_partial_rebalance_isolation_witness :
    dictGet? (( rebalance_partial stC2 (.leaf "A")).2.leaf_allocations) "B" =
      dictGet? stC2.leaf_allocations "B" ∧
    sumAlloc (( rebalance_partial stC2 (.leaf "A")).2.leaf_allocations)
      (BTree.leaf "A").leafIds = subtreeBudget stC2 (.leaf "A") := by
  have h := C3_partial_rebalance_isolation stC2 (.leaf "A") (by decide)
  exact ⟨h.1 "B" (by decide), h.2.1⟩

/-! ## Full rebalance -/

theorem adjustWeight_nil (nw : WeightMap) (i : String) :
    adjustWeight [] nw i = nw := rfl

theorem recalcAllWeights_nil (nw : WeightMap) (t : BTree) :
    recalcAllWeights [] nw t = nw := by
  induction t generalizing nw with
  | leaf i => rfl
  | node i l r ihl ihr =>
      simp only [recalcAllWeights, adjustWeight_nil, ihl, ihr]

/-- C2 (divergence from the claim): `rebalance_full` clears
`leaf_allocations` before `_recalculate_all_weights` runs, so the
membership test `node_id in leaf_allocations` inside the walk always
fails and the utilization-based adjustment of `historical_usage` never
fires — node weights are unchanged by every `rebalance_full` call.  At
the failing input (leaf `A` fully consumed, utilization 1.0 > 0.8
before the call) the weight factor stays 1.0 where the claim requires
it to become 1.1. -/
theorem C2_rebalance_full_never_adjusts :
    (∀ (st : Balancer) (t : BTree),
      (rebalance_full st t).2.node_weights = st.node_weights) ∧
    (dictGet? stC2.leaf_allocations "A").map AllocationRecord.utilization =
      some 1 ∧
    ((rebalance_full stC2 treeAB).2.node_weights "A").historical_usage = 1 := by
  refine ⟨fun st t => recalcAllWeights_nil _ _, ?_, ?_⟩
  · show (dictGet? stC2.leaf_allocations "A").map AllocationRecord.utilization =
      some 1
    norm_num [stC2, dictGet?, AllocationRecord.utilization]
  · show ((recalcAllWeights [] stC2.node_weights treeAB) "A").historical_usage = 1
    rw [recalcAllWeights_nil]
    rfl

/-! ## Zero-weight split -/

/-- C9 (corrected): when the combined weight of both children is 0 it is
replaced by 1, so the distribution never divides by zero and never
fails; but the node's budget is then NOT split evenly — with nonnegative
weights the left child's share `int(b * (0/1))` is 0 and the right child
receives the entire budget. -/
theorem C9_zero_weight_split (nw : WeightMap) (l r : BTree) (b : ℤ)
    (i : String) (m : AllocMap)
    (hnn : ∀ j, 0 ≤ (nw j).total_weight)
    (h0 : subtreeWeight nw l + subtreeWeight nw r = 0) :
    leftShare (subtreeWeight nw l) (subtreeWeight nw r) b = 0 ∧
    rightShare (subtreeWeight nw l) (subtreeWeight nw r) b = b ∧
    distribute nw (.node i l r) b m =
      distribute nw r b (distribute nw l 0 m) := by
  have hl := subtreeWeight_nonneg nw l hnn
  have hlz : subtreeWeight nw l = 0 := by
    have hr := subtreeWeight_nonneg nw r hnn
    linarith
  have hls : leftShare (subtreeWeight nw l) (subtreeWeight nw r) b = 0 := by
    unfold leftShare pyInt
    rw [hlz]
    simp
  refine ⟨hls, ?_, ?_⟩
  · unfold rightShare
    rw [hls]
    ring
  · simp only [distribute]
    rw [hls, sub_zero]

/-- C9 witness: at a node whose two leaves both have weight 0 (zero
`complexity` factor) and budget 100, the left share is 0 and the right
share is the whole 100. -/
theorem C9_zero_weight_split_witness :
    leftShare (subtreeWeight nwZero (.leaf "A")) (subtreeWeight nwZero (.leaf "B")) 100 = 0 ∧
    rightShare (subtreeWeight nwZero (.leaf "A")) (subtreeWeight nwZero (.leaf "B")) 100 = 100 := by
  have h := C9_zero_weight_split nwZero (.leaf "A") (.leaf "B") 100 "R" []
    (fun j => by norm_num [nwZero, NodeWeight.total_weight])
    (by norm_num [subtreeWeight, nwZero, NodeWeight.total_weight])
  exact ⟨h.1, h.2.1⟩

/-- C9 counterexample: with both leaf weights 0 and budget 100 the code
allocates 0 to the left leaf and 100 to the right leaf — not the even
50/50 split the claim states. -/
theorem C9_counterexample :
    getAlloc (distribute nwZero treeAB 100 []) "A" = 0 ∧
    getAlloc (distribute nwZero treeAB 100 []) "B" = 100 ∧
    getAlloc (distribute nwZero treeAB 100 []) "A" ≠ 50 := by
  have hw : subtreeWeight nwZero (.leaf "A") = 0 := by
    norm_num [subtreeWeight, nwZero, NodeWeight.total_weight]
  have hw' : subtreeWeight nwZero (.leaf "B") = 0 := by
    norm_num [subtreeWeight, nwZero, NodeWeight.total_weight]
  have hls : leftShare (subtreeWeight nwZero (.leaf "A"))
      (subtreeWeight nwZero (.leaf "B")) 100 = 0 := by
    unfold leftShare pyInt
    rw [hw, hw']
    simp
  have : distribute nwZero treeAB 100 [] =
      distribute nwZero (.leaf "B") 100 (distribute nwZero (.leaf "A") 0 []) := by
    show distribute nwZero (.node "R" (.leaf "A") (.leaf "B")) 100 [] = _
    simp only [distribute]
    rw [hls, sub_zero]
  rw [this]
  refine ⟨?_, ?_, ?_⟩ <;>
    simp [distribute, getAlloc, dictSet, dictGet?]

/-! ## Token account -/

theorem consume_tokens_preserves (a : TokenAccount) (amt : ℤ)
    (h : AccountInv a) : AccountInv (consume_tokens a amt).2 := by
  unfold consume_tokens
  by_cases hc : amt > tokens_remaining a
  · rw [if_pos hc]
    exact h
  · rw [if_neg hc]
    unfold AccountInv tokens_remaining at *
    simp only []
    omega

theorem m111Process_account (st : M111State) (req : Req)
    (h : AccountInv st.account) : AccountInv ((m111Process st req).2).account := by
  unfold m111Process
  dsimp only
  split
  · exact consume_tokens_preserves _ _ (by split <;> exact h)
  · split
    · exact consume_tokens_preserves _ _ (by split <;> exact h)
    · split <;> exact h

/-- C4 counterexample: after legitimately consuming 5 of 10 tokens,
`set_allocation 3` (the very write the distribution pass performs on
every leaf) leaves `consumed = 5 > allocated = 3`, violating the
invariant the claim says `set_allocation` preserves. -/
theorem C4_counterexample :
    AccountInv { token_allocation := 10, tokens_consumed := 0 } ∧
    consume_tokens { token_allocation := 10, tokens_consumed := 0 } 5 =
      (true, { token_allocation := 10, tokens_consumed := 5 }) ∧
    ¬ AccountInv
        (set_allocation { token_allocation := 10, tokens_consumed := 5 } 3) := by
  refine ⟨by norm_num [AccountInv], ?_, ?_⟩
  · norm_num [consume_tokens, tokens_remaining]
  · norm_num [AccountInv, set_allocation]

/-- C4 (amended): `consume_tokens` rejects atomically — an amount
exceeding `tokens_remaining` returns `False` with the account unchanged
— and `consume_tokens`, `reset_tokens` (for nonnegative allocations) and
the M111 `process` preserve `consumed ≤ allocated`; `set_allocation`,
however, overwrites the allocation unconditionally and breaks the
invariant whenever the new allocation is below the consumed count
(see the counterexample). -/
theorem C4_token_account (a : TokenAccount) (amt : ℤ) (st : M111State)
    (req : Req) (hinv : AccountInv a) (hstinv : AccountInv st.account) :
    (tokens_remaining a < amt → consume_tokens a amt = (false, a)) ∧
    AccountInv (consume_tokens a amt).2 ∧
    (0 ≤ a.token_allocation → AccountInv (reset_tokens a)) ∧
    AccountInv ((m111Process st req).2).account := by
  refine ⟨?_, consume_tokens_preserves a amt hinv, ?_, ?_⟩
  · intro h
    unfold consume_tokens
    rw [if_pos (by omega)]
  · intro h
    unfold AccountInv reset_tokens
    simpa using h
  · exact m111Process_account st req hstinv

/-- C4 witness: the rejection branch at a concrete over-consumption and
the process-preservation branch at a fresh M111 node. -/
theorem C4_token_account_witness :
    consume_tokens { token_allocation := 10, tokens_consumed := 0 } 20 =
      (false, { token_allocation := 10, tokens_consumed := 0 }) ∧
    AccountInv ((m111Process {} emptyReq).2).account := by
  have h := C4_token_account { token_allocation := 10, tokens_consumed := 0 } 20
    {} emptyReq (by norm_num [AccountInv]) (by norm_num [AccountInv])
  exact ⟨h.1 (by norm_num [tokens_remaining]), h.2.2.2⟩

/-! ## Leaf result token bound -/

/-- C7 (amended): the `NodeResult` returned by the M111 leaf always has
`tokens_used ≥ 0`, and the token account itself keeps
`consumed ≤ allocated` (over-consumption rejected inside
`consume_tokens`); but the REPORTED `tokens_used` is not bounded by the
tokens available at call time, because the `consume_tokens` verdict is
discarded — see the counterexample. -/
theorem C7_leaf_token_bound (st : M111State) (req : Req)
    (hstinv : AccountInv st.account) :
    0 ≤ (m111Process st req).1.tokens_used ∧
    AccountInv ((m111Process st req).2).account := by
  refine ⟨?_, m111Process_account st req hstinv⟩
  unfold m111Process
  dsimp only
  split
  · dsimp only
    omega
  · split
    · dsimp only
      omega
    · dsimp only
      norm_num

/-- C7 witness: a fresh M111 node on the empty request. -/
theorem C7_leaf_token_bound_witness :
    0 ≤ (m111Process {} emptyReq).1.tokens_used ∧
    AccountInv ((m111Process {} emptyReq).2).account :=
  C7_leaf_token_bound {} emptyReq (by norm_num [AccountInv])

/-- C7 counterexample: with allocation 0 (hence 0 tokens available), a
`write` of the empty payload reports `tokens_used = 10 > 0` — the
consume_tokens rejection is ignored, so the reported cost exceeds the
tokens available at call time, contrary to the claim. -/
theorem C7_counterexample :
    (m111Process m111Zero reqWriteEmpty).1.tokens_used = 10 ∧
    tokens_remaining m111Zero.account = 0 ∧
    ¬ ((m111Process m111Zero reqWriteEmpty).1.tokens_used ≤
        tokens_remaining m111Zero.account) := by decide

/-! ## Unknown actions -/

/-- C6 (amended): nodes dispatching on the `action` key — the root M000
and the M111 leaf embedded here, like every repository node except M221
— answer an unrecognized action with a failed result whose error is
exactly `"Unknown action: " ++ action` (so it contains the action
string), with no exception and no state change at the root; but M221
dispatches on the `method` key and ignores `action` entirely:
`process({"action": "bogus"})` takes the default-GET path and fails with
`"Endpoint not found"` instead — see the counterexample. -/
theorem C6_unknown_action (st₁ : M111State) (env : RootEnv) (st₀ : M000State)
    (req₁ req₀ : Req) (a₁ a₀ : String)
    (h₁ : req₁.action = some a₁) (h₁r : a₁ ≠ "read") (h₁w : a₁ ≠ "write")
    (h₀ : req₀.action = some a₀) (h₀n : a₀ ∉ recognizedRootActions) :
    (m111Process st₁ req₁).1 =
      { success := false, error := some ("Unknown action: " ++ a₁),
        tokens_used := 10, node_id := "M111" } ∧
    (m000Process env st₀ req₀).1 =
      { success := false, error := some ("Unknown action: " ++ a₀),
        tokens_used := 30, node_id := "M000" } ∧
    (m000Process env st₀ req₀).2 = st₀ ∧
    (m221Process {} { emptyReq with action := some "bogus" }).1 =
      { success := false, error := some "Endpoint not found",
        tokens_used := 25, node_id := "M221" } := by
  simp only [recognizedRootActions, List.mem_cons, List.mem_singleton,
    List.not_mem_nil, or_false] at h₀n
  push_neg at h₀n
  obtain ⟨hn1, hn2, hn3, hn4, hn5, hn6⟩ := h₀n
  refine ⟨?_, ?_, ?_, ?_⟩
  · unfold m111Process
    rw [h₁]
    dsimp only [Option.getD]
    rw [if_neg h₁r, if_neg h₁w]
  · unfold m000Process
    rw [h₀]
    dsimp only [Option.getD]
    rw [if_neg hn1, if_neg hn2, if_neg hn3, if_neg hn4, if_neg hn5, if_neg hn6]
  · unfold m000Process
    rw [h₀]
    dsimp only [Option.getD]
    rw [if_neg hn1, if_neg hn2, if_neg hn3, if_neg hn4, if_neg hn5, if_neg hn6]
  · rfl

/-- C6 witness: the unknown action `bogus` on a fresh M111 node and on
the root with always-succeeding children. -/
theorem C6_unknown_action_witness :
    (m111Process {} { emptyReq with action := some "bogus" }).1 =
      { success := false, error := some ("Unknown action: " ++ "bogus"),
        tokens_used := 10, node_id := "M111" } ∧
    (m000Process envOk st000 { emptyReq with action := some "bogus" }).1 =
      { success := false, error := some ("Unknown action: " ++ "bogus"),
        tokens_used := 30, node_id := "M000" } := by
  have h := C6_unknown_action {} envOk st000
    { emptyReq with action := some "bogus" }
    { emptyReq with action := some "bogus" } "bogus" "bogus"
    rfl (by decide) (by decide) rfl (by decide)
  exact ⟨h.1, h.2.1⟩

/-- C6 counterexample: on M221, `process({"action": "bogus"})` returns
`success=false` with error `"Endpoint not found"`, which does not
contain the literal action string `"bogus"` as the claim requires. -/
theorem C6_counterexample :
    (m221Process {} { emptyReq with action := some "bogus" }).1.success = false ∧
    (m221Process {} { emptyReq with action := some "bogus" }).1.error =
      some "Endpoint not found" ∧
    containsSub "Endpoint not found" "bogus" = false := by decide

/-! ## Workflow history -/

theorem except_bind_ok {ε α β : Type} (x : Except ε α) (f : α → Except ε β)
    (b : β) (h : x >>= f = .ok b) : ∃ a, x = .ok a ∧ f a = .ok b := by
  cases x with
  | error e => simp [Bind.bind, Except.bind] at h
  | ok a => exact ⟨a, rfl, by simpa [Bind.bind, Except.bind] using h⟩

theorem execTenantReport_ok (env : RootEnv) (st : M000State) (d : PyVal)
    (r : NodeResult) (st' : M000State)
    (h : execTenantReport env st d = .ok (r, st')) :
    st' = { st with workflow_history := st.workflow_history ++
      [{ id := "WF-" ++ pad4 (st.workflow_history.length + 1),
         wtype := "tenant_report", timestamp := env.nowIso,
         success := r.success, tokens_used := r.tokens_used }] } := by
  unfold execTenantReport at h
  obtain ⟨td, h1, h⟩ := except_bind_ok _ _ _ h
  obtain ⟨tid, h2, h⟩ := except_bind_ok _ _ _ h
  obtain ⟨td2, h3, h⟩ := except_bind_ok _ _ _ h
  simp only [Except.ok.injEq, Prod.mk.injEq] at h
  obtain ⟨hr, hst⟩ := h
  subst hst
  rw [← hr]

theorem execFullPipeline_ok (env : RootEnv) (st : M000State) (d : PyVal)
    (out : NodeResult × M000State)
    (h : execFullPipeline env st d = .ok out) : out.2 = st := by
  unfold execFullPipeline at h
  obtain ⟨tid, h1, h⟩ := except_bind_ok _ _ _ h
  simp only [Except.ok.injEq] at h
  rw [← h]

/-- C8 (corrected): only the `tenant_report` workflow records a history
entry.  A non-raising tenant_report run through the root's
`full_workflow` action appends exactly one entry whose id is
`WF-` followed by the zero-padded value of `len+1` with type, timestamp and outcome; `data_sync` and
`full_pipeline` runs never touch the history; two consecutive
tenant_report runs from an empty history append exactly the two
distinct sequential ids `WF-0001` and `WF-0002`. -/
theorem C8_workflow_history :
    (∀ (env : RootEnv) (st : M000State) (d : PyVal) (r : NodeResult)
      (st' : M000State), execTenantReport env st d = .ok (r, st') →
      st'.workflow_history = st.workflow_history ++
        [{ id := "WF-" ++ pad4 (st.workflow_history.length + 1),
           wtype := "tenant_report", timestamp := env.nowIso,
           success := r.success, tokens_used := r.tokens_used }]) ∧
    (∀ (env : RootEnv) (st : M000State) (req : Req)
      (out : NodeResult × M000State),
      req.action = some "full_workflow" →
      req.workflow_type = some "tenant_report" →
      execTenantReport env st (req.data.getD (.pyDict [])) = .ok out →
      m000Process env st req = out) ∧
    (∀ (env : RootEnv) (st : M000State) (req : Req),
      req.action = some "full_workflow" →
      req.workflow_type = some "data_sync" →
      ((m000Process env st req).2).workflow_history = st.workflow_history) ∧
    (∀ (env : RootEnv) (st : M000State) (req : Req),
      req.action = some "full_workflow" →
      req.workflow_type = some "full_pipeline" →
      ((m000Process env st req).2).workflow_history = st.workflow_history) ∧
    (∀ (env : RootEnv) (st : M000State) (d : PyVal) (r₁ r₂ : NodeResult)
      (st₁ st₂ : M000State), st.workflow_history = [] →
      execTenantReport env st d = .ok (r₁, st₁) →
      execTenantReport env st₁ d = .ok (r₂, st₂) →
      st₂.workflow_history.map WorkflowEntry.id = ["WF-0001", "WF-0002"]) := by
  refine ⟨?_, ?_, ?_, ?_, ?_⟩
  · intro env st d r st' h
    rw [execTenantReport_ok env st d r st' h]
  · intro env st req out hact hwt hok
    unfold m000Process
    rw [hact, hwt]
    dsimp only
    rw [if_neg (by decide), if_pos (by decide), if_pos (by decide), hok]
  · intro env st req hact hwt
    unfold m000Process
    rw [hact, hwt]
    dsimp only
    rw [if_neg (by decide), if_pos (by decide), if_neg (by decide),
      if_pos (by decide)]
    rfl
  · intro env st req hact hwt
    unfold m000Process
    rw [hact, hwt]
    dsimp only
    rw [if_neg (by decide), if_pos (by decide), if_neg (by decide),
      if_neg (by decide), if_pos (by decide)]
    rcases hfp : execFullPipeline env st (req.data.getD (.pyDict [])) with e | out
    · rfl
    · show out.2.workflow_history = st.workflow_history
      rw [execFullPipeline_ok env st _ out hfp]
  · intro env st d r₁ r₂ st₁ st₂ hnil h1 h2
    have e1 := execTenantReport_ok env st d r₁ st₁ h1
    have e2 := execTenantReport_ok env st₁ d r₂ st₂ h2
    subst e1 e2
    simp only [hnil, List.nil_append, List.map_append, List.map_cons,
      List.map_nil, List.singleton_append, List.length_cons, List.length_nil]
    decide

/-- C8 witness: concrete runs under the failing-children environment
(one tenant_report appends `WF-0001`; a second appends `WF-0002`), plus
full_pipeline and data_sync runs that leave the history untouched. -/
theorem C8_workflow_history_witness :
    trState1.workflow_history = st000.workflow_history ++
      [{ id := "WF-" ++ pad4 (st000.workflow_history.length + 1),
         wtype := "tenant_report", timestamp := envFail.nowIso,
         success := (trResult "WF-0001").success,
         tokens_used := (trResult "WF-0001").tokens_used }] ∧
    m000Process envFail st000 reqTenantReport = (trResult "WF-0001", trState1) ∧
    ((m000Process envOk st000 reqDataSync).2).workflow_history =
      st000.workflow_history ∧
    ((m000Process envOk st000 reqFullPipeline).2).workflow_history =
      st000.workflow_history ∧
    trState2.workflow_history.map WorkflowEntry.id = ["WF-0001", "WF-0002"] := by
  have h := C8_workflow_history
  exact ⟨h.1 envFail st000 (.pyDict []) (trResult "WF-0001") trState1 rfl,
    h.2.1 envFail st000 reqTenantReport (trResult "WF-0001", trState1) rfl rfl rfl,
    h.2.2.1 envOk st000 reqDataSync rfl rfl,
    h.2.2.2.1 envOk st000 reqFullPipeline rfl rfl,
    h.2.2.2.2 envFail st000 (.pyDict []) (trResult "WF-0001") (trResult "WF-0002")
      trState1 trState2 rfl rfl rfl⟩

/-- C8 counterexample: a `full_pipeline` run through `full_workflow`
completes successfully (all steps succeed under always-succeeding
children), yet the workflow history stays empty — no entry is appended,
contrary to the claim that every completed named pipeline run appends
one. -/
theorem C8_counterexample :
    (m000Process envOk st000 reqFullPipeline).1.success = true ∧
    ((m000Process envOk st000 reqFullPipeline).2).workflow_history = [] := by
  constructor
  · decide
  · decide

/-! ## Routing -/

/-- C10 (corrected): `route_request` is a three-way dispatch, not a
total two-way split: a target starting with `"M1"` is forwarded to the
left subtree, a target starting with `"M2"` to the right subtree, and
any other target yields the failed result `Unknown target: <id>` without
either subtree being invoked. -/
theorem C10_routing (env : RootEnv) (st : M000State) (req : Req) (t : String)
    (hact : req.action = some "route_request") (htgt : req.target = some t) :
    (pyStarts t "M1" = true →
      m000Process env st req =
        ({ success := (env.leftProc (req.request.getD emptyReq)).success,
           data := (env.leftProc (req.request.getD emptyReq)).data,
           error := (env.leftProc (req.request.getD emptyReq)).error,
           tokens_used := 30 + (env.leftProc (req.request.getD emptyReq)).tokens_used,
           node_id := "M000" }, st)) ∧
    (pyStarts t "M1" = false → pyStarts t "M2" = true →
      m000Process env st req =
        ({ success := (env.rightProc (req.request.getD emptyReq)).success,
           data := (env.rightProc (req.request.getD emptyReq)).data,
           error := (env.rightProc (req.request.getD emptyReq)).error,
           tokens_used := 30 + (env.rightProc (req.request.getD emptyReq)).tokens_used,
           node_id := "M000" }, st)) ∧
    (pyStarts t "M1" = false → pyStarts t "M2" = false →
      m000Process env st req =
        ({ success := false, error := some ("Unknown target: " ++ t),
           tokens_used := 30, node_id := "M000" }, st)) := by
  refine ⟨?_, ?_, ?_⟩ <;>
  · intro h1
    try intro h2
    unfold m000Process
    rw [hact, htgt]
    dsimp only [Option.getD]
    rw [if_neg (by decide), if_neg (by decide), if_pos rfl]
    simp [h1]
    try simp [h2]

/-- C10 witness: a target `M100` is forwarded left; the target `X000`
yields the unknown-target failure. -/
theorem C10_routing_witness :
    m000Process envRoute st000
      { emptyReq with action := some "route_request", target := some "M100" } =
      ({ success := (envRoute.leftProc emptyReq).success,
         data := (envRoute.leftProc emptyReq).data,
         error := (envRoute.leftProc emptyReq).error,
         tokens_used := 30 + (envRoute.leftProc emptyReq).tokens_used,
         node_id := "M000" }, st000) ∧
    m000Process envRoute st000 reqRouteX =
      ({ success := false, error := some ("Unknown target: " ++ "X000"),
         tokens_used := 30, node_id := "M000" }, st000) := by
  constructor
  · exact (C10_routing envRoute st000
      { emptyReq with action := some "route_request", target := some "M100" }
      "M100" rfl rfl).1 (by decide)
  · exact (C10_routing envRoute st000 reqRouteX "X000" rfl rfl).2.2
      (by decide) (by decide)

/-- C10 counterexample: the target `X000` (which begins with neither
subtree prefix) is NOT forwarded to the right subtree — the right
child would have answered successfully, but the root returns the failed
`Unknown target: X000` result instead. -/
theorem C10_counterexample :
    (m000Process envRoute st000 reqRouteX).1.success = false ∧
    (m000Process envRoute st000 reqRouteX).1.error =
      some "Unknown target: X000" ∧
    (envRoute.rightProc (reqRouteX.request.getD emptyReq)).success = true := by
  decide

end TokenTree
